import Mathlib

/-!
Verification of the Compliance & Coordination Engine of the TGA plan-checking
backend (backend/agent_core): the per-trade rule evaluators (checks/), the
CheckEngine wrapper (tga_pipeline.py) and the cross-trade coordination checks
of TGACoordinator (tga_coordinator.py).

Conventions of the embedding:
* Python floats are modelled as exact rationals (ℚ).  All thresholds of the
  parameter catalog are decimal literals, so this is exact; the tolerance
  1e-6 of the interface check is modelled as the exact rational 10⁻⁶.
* A Python value that may be absent or non-numeric (dict.get followed by a
  float conversion) is modelled as an `Option ℚ` holding the result of the
  conversion; `none` covers both the missing key and an unparsable value.
* Python truthiness of strings / floats / lists is modelled by dedicated
  helpers (`strTruthy`, `floatOr`, `truthyOrStr`, `pyOr`).
* Python string formatting: `f"{x:.1f}"` is `fmtFixed 1 x` (fixed-point
  rounding of the exact rational, half away from zero; the embedded claims
  never hit a tie, where CPython's binary-float rounding could differ) and
  `f"{x}"`/`str(x)` on a float is `pyFloatRepr x` (shortest exact decimal;
  equal to CPython's repr for every catalog literal, all of which round-trip).
* `str.lower` is `pyToLower`, which extends ASCII lowering with the German
  umlauts appearing in the source's keyword sets.
-/

attribute [local semireducible] Rat.add Rat.sub Rat.mul Rat.inv Rat.ofScientific

/-- Lowercases one character the way CPython's `str.lower` does on the
character set of this repository (ASCII plus German umlauts). -/
def pyLowerChar (c : Char) : Char :=
  if c = 'Ä' then 'ä' else if c = 'Ö' then 'ö' else if c = 'Ü' then 'ü' else c.toLower

/-- Uppercases one character (ASCII plus German umlauts); `ß` is left alone,
as `str.title`/`str.capitalize` never uppercase a non-initial character. -/
def pyUpperChar (c : Char) : Char :=
  if c = 'ä' then 'Ä' else if c = 'ö' then 'Ö' else if c = 'ü' then 'Ü' else c.toUpper

/-- Python's `str.lower` over the repository's character set. -/
def pyToLower (s : String) : String :=
  String.mk (s.data.map pyLowerChar)

/-- Characters the source's `str.title` treats as cased (ASCII letters plus
the German letters appearing in the component names). -/
def isCasedPy (c : Char) : Bool :=
  c.isAlpha || c ∈ ['ä', 'ö', 'ü', 'ß', 'Ä', 'Ö', 'Ü']

/-- Python's `str.capitalize`: first character uppercased, the rest lowered. -/
def capitalizePy (s : String) : String :=
  match s.data with
  | [] => ""
  | c :: rest => String.mk (pyUpperChar c :: rest.map pyLowerChar)

/-- Helper of `titlePy`: the Boolean argument records whether the previous
character was cased. -/
def titlePyAux : Bool → List Char → List Char
  | _, [] => []
  | prevCased, c :: rest =>
    (if isCasedPy c then (if prevCased then pyLowerChar c else pyUpperChar c) else c)
      :: titlePyAux (isCasedPy c) rest

/-- Python's `str.title`: each run of cased characters starts uppercase and
continues lowercase. -/
def titlePy (s : String) : String :=
  String.mk (titlePyAux false s.data)

/-- Python's `str.replace("_", " ")` as used on component names. -/
def replaceUnderscore (s : String) : String :=
  String.mk (s.data.map (fun c => if c = '_' then ' ' else c))

/-- Python truthiness of an optional string: `None` and `""` are falsy. -/
def strTruthy : Option String → Bool
  | none => false
  | some s => !(s == "")

/-- Rendering of an optional string inside an f-string: Python prints the
value itself, and prints `None` for an absent value. -/
def optStr : Option String → String
  | none => "None"
  | some s => s

/-- Python's `x or default` on an optional string against a string default. -/
def truthyOrStr (x : Option String) (default : String) : String :=
  match x with
  | some s => if s == "" then default else s
  | none => default

/-- Python's `x or y` on two optional strings (truthiness chain). -/
def pyOr (x y : Option String) : Option String :=
  match x with
  | some s => if s == "" then y else some s
  | none => y

/-- Python's `x or y` on optional floats: `None` and `0.0` are falsy. -/
def floatOr (x y : Option ℚ) : Option ℚ :=
  match x with
  | some v => if v == 0 then y else some v
  | none => y

/-- Python's `x is None or x <= bound` (the short-circuit pattern used as a
guard condition throughout the evaluators). -/
def noneOrLe (x : Option ℚ) (bound : ℚ) : Bool :=
  match x with
  | none => true
  | some v => decide (v ≤ bound)

/-- Python's `x is None or x >= bound`. -/
def noneOrGe (x : Option ℚ) (bound : ℚ) : Bool :=
  match x with
  | none => true
  | some v => decide (bound ≤ v)

/-- Pads a decimal digit string on the left with zeros up to `d` digits. -/
def padZeros (d : Nat) (s : String) : String :=
  String.mk (List.replicate (d - s.length) '0') ++ s

/-- Prints a scaled integer `scaled` as a decimal with `d` fractional digits. -/
def decimalString (d : Nat) (scaled : Int) : String :=
  let sign := if scaled < 0 then "-" else ""
  let a : Nat := scaled.natAbs
  let base : Nat := 10 ^ d
  sign ++ toString (a / base) ++ "." ++ padZeros d (toString (a % base))

/-- Python's fixed-point format `f"{x:.df}"` on the exact rational: rounds to
`d` decimal digits, half away from zero. -/
def fmtFixed (d : Nat) (x : ℚ) : String :=
  decimalString d ⌊x * (10 : ℚ) ^ d + 1 / 2⌋

/-- Python's `str`/`repr` of a float whose shortest round-tripping decimal is
the value itself (true of every catalog literal): the exact minimal decimal
representation, always with at least one fractional digit. -/
def pyFloatRepr (x : ℚ) : String :=
  match (List.range 31).find? (fun d => (x * (10 : ℚ) ^ d).den = 1) with
  | some d =>
    let d := max d 1
    decimalString d (x * (10 : ℚ) ^ d).num
  | none => toString x

/-- Rendering of an optional float inside an f-string. -/
def optFloatStr : Option ℚ → String
  | none => "None"
  | some v => pyFloatRepr v

/-- Python's `needle in haystack` substring test. -/
def containsSub (haystack needle : String) : Bool :=
  haystack.data.tails.any (fun suffix => needle.data.isPrefixOf suffix)

/-- Python's `sorted` on strings (code-point lexicographic order). -/
def sortStrings (l : List String) : List String :=
  l.mergeSort (fun a b => !(decide (b < a)))

/-- Dictionary lookup in an association list with string keys (the embedding
of a finished Python dict; keys are unique by construction). -/
def lookupStr {α : Type} (entries : List (String × α)) (key : String) : Option α :=
  (entries.find? (fun kv => kv.1 == key)).map (fun kv => kv.2)

namespace checks

/-- Finding of checks/common.py: the standardized record a rule evaluator
emits (field order and defaults as in the dataclass). -/
structure Finding where
  id : String
  kategorie : String
  prioritaet : String
  titel : String
  beschreibung : String
  gewerk : String
  norm_referenz : Option String := none
  empfehlung : Option String := none
  konfidenz_score : ℚ := 0.7
  dokument_id : Option String := none
  plan_referenz : Option String := none
deriving DecidableEq, Repr

/-- Result of a guard producer: `None`, a single Finding, or a sequence of
Findings (the three result shapes guard in checks/common.py accepts). -/
inductive GuardProduced where
  | nothing
  | single (f : Finding)
  | many (fs : List Finding)

/-- Candidate argument of guard: a zero-argument thunk or a direct value
(guard checks `callable(candidate)` first). -/
inductive GuardCandidate where
  | thunk (produce : Unit → GuardProduced)
  | value (v : GuardProduced)

/-- Normalization guard applies to the produced value (lines 45-51 of
checks/common.py): `None` becomes `[]`, a Finding becomes a singleton, a
sequence becomes the corresponding list. -/
def normalizeProduced : GuardProduced → List Finding
  | .nothing => []
  | .single f => [f]
  | .many fs => fs

/-- guard of checks/common.py: returns `[]` when disabled or when the checked
condition holds, and otherwise evaluates the candidate (calling it when it is
a thunk) and normalizes the result. -/
def guard (condition : Bool) (candidate : GuardCandidate) (enabled : Bool := true) :
    List Finding :=
  if !enabled || condition then []
  else
    match candidate with
    | .thunk produce => normalizeProduced (produce ())
    | .value v => normalizeProduced v

/-- pct of checks/common.py on its scalar branch (the only branch the
embedded evaluators reach): formats a ratio as a percentage with `digits`
fractional digits, printing "n/a" for an absent value. -/
def pct (value : Option ℚ) (digits : Nat := 1) : String :=
  match value with
  | none => "n/a"
  | some ratio => fmtFixed digits (ratio * 100) ++ "%"

end checks

/-- Parameter catalog entry PARAMS["kg420"] of checks/params.py (the
specific-load dict is keyed by project type, values are (min, max)). -/
structure Kg420Params where
  specific_load : List (String × (ℚ × ℚ))
  supply_temp_max : ℚ
  return_temp_max : ℚ
  pressure_min : ℚ
  pressure_max : ℚ
  hydraulic_balance_required : Bool
  generator_margin : ℚ
  cop_min : ℚ
  boiler_efficiency_min : ℚ
  delta_t_tolerance : ℚ
deriving DecidableEq, Repr

/-- Values of PARAMS["kg420"] in checks/params.py. -/
def PARAMS_kg420 : Kg420Params :=
  { specific_load :=
      [ ("wohngebaeude", (30.0, 100.0))
      , ("buerogebaeude", (40.0, 95.0))
      , ("schule", (35.0, 110.0))
      , ("krankenhaus", (45.0, 130.0))
      , ("industriebau", (35.0, 160.0)) ]
  , supply_temp_max := 70.0
  , return_temp_max := 55.0
  , pressure_min := 1.5
  , pressure_max := 3.0
  , hydraulic_balance_required := true
  , generator_margin := 1.15
  , cop_min := 3.5
  , boiler_efficiency_min := 0.92
  , delta_t_tolerance := 5.0 }

/-- Parameter catalog entry PARAMS["kg440"] of checks/params.py.  The Python
sets are modelled as lists in literal order (only membership is used). -/
structure Kg440Params where
  voltage_drop_max_percent : ℚ
  lighting_power_density : List (String × ℚ)
  emergency_lighting_required : List String
  ups_required_for : List String
  diversity_factor_range : ℚ × ℚ
deriving DecidableEq, Repr

/-- Values of PARAMS["kg440"] in checks/params.py. -/
def PARAMS_kg440 : Kg440Params :=
  { voltage_drop_max_percent := 3.0
  , lighting_power_density := [("buerogebaeude", 12.0), ("schule", 15.0), ("industrie", 18.0)]
  , emergency_lighting_required := ["buerogebaeude", "schule", "krankenhaus"]
  , ups_required_for := ["rechenzentrum", "operationssaal"]
  , diversity_factor_range := (0.6, 0.9) }

namespace kg420_heating

/-- One entry of context["heating_load"]["rooms"]: numeric fields hold the
result of the source's float conversion, `name` the raw string value. -/
structure Room where
  name : Option String
  heizlast : Option ℚ
  spezifische_heizlast : Option ℚ
deriving DecidableEq, Repr

/-- context["system"] of the heating context: temperatures, pressure, the
truthiness of `hydraulic_balancing`, and the string entries of `components`
(non-string entries of the Python list are dropped by the source's
`isinstance` filter and therefore not modelled). -/
structure HeizSystem where
  supply_temperature : Option ℚ
  return_temperature : Option ℚ
  pressure : Option ℚ
  hydraulic_balancing : Bool
  components : List String
deriving DecidableEq, Repr

/-- context["generator"] of the heating context. -/
structure HeizGenerator where
  leistung : Option ℚ
  typ : Option String
  cop : Option ℚ
  cop_scop : Option ℚ
  wirkungsgrad : Option ℚ
deriving DecidableEq, Repr

/-- The heating context consumed by kg420_heating.evaluate: `projekt_typ` as
the raw optional string, `rooms` and `total` from context["heating_load"]
(an absent or falsy "heating_load" dict is the empty rooms list with
`total := none`). -/
structure Context where
  projekt_typ : Option String
  rooms : List Room
  total : Option ℚ
  system : HeizSystem
  generator : HeizGenerator
deriving DecidableEq, Repr

/-- GEWERK of checks/kg420_heating.py. -/
def GEWERK : String := "kg420_heizung"

/-- The required component set _REQUIRED_COMPONENTS (a Python set, modelled
as a list in literal order; it is only used through difference and sort). -/
def REQUIRED_COMPONENTS : List String :=
  ["wärmeerzeuger", "umwälzpumpe", "ausdehnungsgefäß", "sicherheitsventil", "manometer"]

/-- Lookup of the specific-load range: the source's
`params["specific_load"].get(projekt_typ) or params["specific_load"].get("buerogebaeude")`. -/
def rangeData (p : Kg420Params) (projekt_typ : String) : Option (ℚ × ℚ) :=
  match lookupStr p.specific_load projekt_typ with
  | some r => some r
  | none => lookupStr p.specific_load "buerogebaeude"

/-- Fallback total load: sum of the rooms' `heizlast` values, each divided by
1000 when above 1000 (the source's W-to-kW heuristic), skipping absent ones. -/
def roomLoadSum (rooms : List Room) : ℚ :=
  rooms.foldl
    (fun acc room =>
      match room.heizlast with
      | none => acc
      | some value => acc + (if value > 1000 then value / 1000 else value))
    0

/-- total_load of evaluate: context["heating_load"]["total"] when parsable,
otherwise the summed room loads. -/
def totalLoad (context : Context) : ℚ :=
  match context.total with
  | some t => t
  | none => roomLoadSum context.rooms

/-- The no-room-data guard of evaluate (Finding kg420_0001). -/
def noRoomsBefunde (rooms : List Room) : List checks.Finding :=
  checks.guard (!rooms.isEmpty)
    (.thunk fun _ =>
      .single
        { id := "kg420_0001"
        , kategorie := "technisch"
        , prioritaet := "hoch"
        , titel := "Keine Heizlastdaten gefunden"
        , beschreibung := "Für die Heizungsbewertung konnten keine Raumheizlasten identifiziert werden."
        , gewerk := GEWERK
        , empfehlung := some "Heizlastberechnung nach DIN EN 12831 bereitstellen."
        , konfidenz_score := 0.55 })

/-- The per-room specific-load range check of evaluate: a value above the
maximum or below the minimum yields a distinct Finding; an absent or
unparsable value yields none. -/
def roomBefunde (projekt_typ : String) (range_data : Option (ℚ × ℚ)) (room : Room) :
    List checks.Finding :=
  match room.spezifische_heizlast with
  | none => []
  | some specific_value =>
    (match range_data with
     | none => []
     | some range =>
       (if specific_value > range.2 then
          [ { id := "kg420_room_" ++ (room.name.getD "unbekannt") ++ "_hoch"
            , kategorie := "technisch"
            , prioritaet := "mittel"
            , titel := "Spezifische Heizlast über Richtwert"
            , beschreibung :=
                "Für den Raum " ++ (room.name.getD "unbekannt")
                  ++ " liegt die spezifische Heizlast bei " ++ fmtFixed 1 specific_value
                  ++ " W/m² und überschreitet den Richtwert von " ++ pyFloatRepr range.2
                  ++ " W/m² für " ++ projekt_typ ++ "."
            , gewerk := GEWERK
            , norm_referenz := some "DIN EN 12831-1"
            , empfehlung := some "Bauteilannahmen und Lüftungszonen prüfen."
            , konfidenz_score := 0.82 } ]
        else [])
       ++
       (if specific_value < range.1 then
          [ { id := "kg420_room_" ++ (room.name.getD "unbekannt") ++ "_niedrig"
            , kategorie := "technisch"
            , prioritaet := "niedrig"
            , titel := "Spezifische Heizlast auffällig niedrig"
            , beschreibung :=
                "Der Raum " ++ (room.name.getD "unbekannt") ++ " weist lediglich "
                  ++ fmtFixed 1 specific_value ++ " W/m² auf."
                  ++ " Erwartungswert: mindestens " ++ pyFloatRepr range.1 ++ " W/m²."
            , gewerk := GEWERK
            , norm_referenz := some "DIN EN 12831-1"
            , empfehlung := some "Eingabedaten der Heizlastberechnung überprüfen."
            , konfidenz_score := 0.7 } ]
        else []))

/-- The supply-temperature guard of evaluate (Finding kg420_vorlauf_001). -/
def vorlaufBefunde (p : Kg420Params) (supply_temp : Option ℚ) : List checks.Finding :=
  checks.guard (noneOrLe supply_temp p.supply_temp_max)
    (.thunk fun _ =>
      .single
        { id := "kg420_vorlauf_001"
        , kategorie := "technisch"
        , prioritaet := "mittel"
        , titel := "Vorlauftemperatur über Grenzwert"
        , beschreibung :=
            "Die geplante Vorlauftemperatur beträgt " ++ optFloatStr supply_temp
              ++ " °C und überschreitet den Grenzwert von " ++ pyFloatRepr p.supply_temp_max
              ++ " °C für Niedertemperatursysteme."
        , gewerk := GEWERK
        , norm_referenz := some "GEG §70"
        , empfehlung := some "Heizkreis-Temperaturniveau optimieren (z.B. größere Heizflächen)."
        , konfidenz_score := 0.78 })

/-- The return-temperature guard of evaluate (Finding kg420_ruecklauf_001). -/
def ruecklaufBefunde (p : Kg420Params) (return_temp : Option ℚ) : List checks.Finding :=
  checks.guard (noneOrLe return_temp p.return_temp_max)
    (.thunk fun _ =>
      .single
        { id := "kg420_ruecklauf_001"
        , kategorie := "technisch"
        , prioritaet := "niedrig"
        , titel := "Rücklauftemperatur über Richtwert"
        , beschreibung :=
            "Der Rücklauf liegt bei " ++ optFloatStr return_temp
              ++ " °C und überschreitet den empfohlenen Wert von "
              ++ pyFloatRepr p.return_temp_max ++ " °C."
        , gewerk := GEWERK
        , norm_referenz := some "VDI 6030"
        , empfehlung := some "Hydraulische Optimierung prüfen (z.B. Volumenstromerhöhung)."
        , konfidenz_score := 0.72 })

/-- The temperature-spread check of evaluate (Finding kg420_deltaT_001);
reached only when both temperatures are present and the spread is positive. -/
def deltaTBefunde (p : Kg420Params) (supply_temp return_temp : Option ℚ) :
    List checks.Finding :=
  match supply_temp, return_temp with
  | some s, some r =>
    if s > r then
      let delta_t := s - r
      if delta_t < p.delta_t_tolerance then
        [ { id := "kg420_deltaT_001"
          , kategorie := "technisch"
          , prioritaet := "mittel"
          , titel := "Temperaturspreizung zu gering"
          , beschreibung :=
              "Die Temperaturspreizung beträgt nur " ++ fmtFixed 1 delta_t
                ++ " K. Für stabile Regelung sollten mindestens "
                ++ pyFloatRepr p.delta_t_tolerance ++ " K erreicht werden."
          , gewerk := GEWERK
          , norm_referenz := some "VDI 2035"
          , empfehlung := some "Heizflächen oder Volumenströme anpassen."
          , konfidenz_score := 0.69 } ]
      else []
    else []
  | _, _ => []

/-- The system-pressure range check of evaluate (kg420_druck_min / _max). -/
def druckBefunde (p : Kg420Params) (system_pressure : Option ℚ) : List checks.Finding :=
  match system_pressure with
  | none => []
  | some pressure =>
    if pressure < p.pressure_min then
      [ { id := "kg420_druck_min"
        , kategorie := "technisch"
        , prioritaet := "mittel"
        , titel := "Anlagendruck zu niedrig"
        , beschreibung :=
            "Der dokumentierte Anlagendruck beträgt " ++ fmtFixed 1 pressure
              ++ " bar. Mindestwert nach DIN EN 12828: " ++ pyFloatRepr p.pressure_min
              ++ " bar."
        , gewerk := GEWERK
        , norm_referenz := some "DIN EN 12828"
        , empfehlung := some "Vordruck des Ausdehnungsgefäßes prüfen und nachjustieren."
        , konfidenz_score := 0.77 } ]
    else if pressure > p.pressure_max then
      [ { id := "kg420_druck_max"
        , kategorie := "technisch"
        , prioritaet := "hoch"
        , titel := "Anlagendruck oberhalb Sicherheitsgrenze"
        , beschreibung :=
            "Der festgelegte Systemdruck beträgt " ++ fmtFixed 1 pressure
              ++ " bar und überschreitet den zulässigen Maximalwert von "
              ++ pyFloatRepr p.pressure_max ++ " bar."
        , gewerk := GEWERK
        , norm_referenz := some "DIN EN 12828"
        , empfehlung := some "Sicherheitsventil und Ausdehnungsgefäßdimensionierung überprüfen."
        , konfidenz_score := 0.84 } ]
    else []

/-- The hydraulic-balancing guard of evaluate (kg420_hydraulik_001), active
because the catalog sets hydraulic_balance_required. -/
def hydraulikBefunde (p : Kg420Params) (system : HeizSystem) : List checks.Finding :=
  if p.hydraulic_balance_required then
    checks.guard system.hydraulic_balancing
      (.thunk fun _ =>
        .single
          { id := "kg420_hydraulik_001"
          , kategorie := "technisch"
          , prioritaet := "hoch"
          , titel := "Nachweis hydraulischer Abgleich fehlt"
          , beschreibung := "Für das Heizsystem liegt kein Nachweis des hydraulischen Abgleichs vor."
          , gewerk := GEWERK
          , norm_referenz := some "EnSimiMaV, VdZ-Formular"
          , empfehlung := some "Hydraulischen Abgleich durchführen und protokollieren."
          , konfidenz_score := 0.88 })
  else []

/-- The required-components check of evaluate (kg420_komponenten_001). -/
def komponentenBefunde (system : HeizSystem) : List checks.Finding :=
  let components := system.components.map pyToLower
  let missing_raw := REQUIRED_COMPONENTS.filter (fun entry => !(components.contains entry))
  if !missing_raw.isEmpty then
    let missing := (sortStrings missing_raw).map (fun entry => titlePy (replaceUnderscore entry))
    [ { id := "kg420_komponenten_001"
      , kategorie := "technisch"
      , prioritaet := "hoch"
      , titel := "Pflichtkomponenten im Schema nicht nachgewiesen"
      , beschreibung :=
          "Im Anlagenschema fehlen folgende Komponenten: " ++ String.intercalate ", " missing
      , gewerk := GEWERK
      , norm_referenz := some "DIN EN 12828"
      , empfehlung := some "Schema ergänzen und Komponenten nachweisen."
      , konfidenz_score := 0.83 } ]
  else []

/-- The generator-sizing check of evaluate (kg420_erzeuger_001): reached when
a generator power is documented and the total load is truthy (non-zero). -/
def erzeugerBefunde (p : Kg420Params) (generator_power : Option ℚ) (total_load : ℚ) :
    List checks.Finding :=
  match generator_power with
  | none => []
  | some power =>
    if total_load ≠ 0 then
      let margin := if total_load ≠ 0 then power / total_load else 0
      if margin < p.generator_margin then
        [ { id := "kg420_erzeuger_001"
          , kategorie := "technisch"
          , prioritaet := "hoch"
          , titel := "Wärmeerzeuger zu klein dimensioniert"
          , beschreibung :=
              "Der Wärmeerzeuger ist mit " ++ fmtFixed 1 power
                ++ " kW angesetzt. Der Nachweis erfordert mindestens "
                ++ checks.pct (some (p.generator_margin - 1))
                ++ " Reserve auf die berechnete Heizlast (aktuell "
                ++ fmtFixed 1 total_load ++ " kW)."
          , gewerk := GEWERK
          , norm_referenz := some "DIN EN 12831-3"
          , empfehlung := some "Erzeugerleistung erhöhen oder Heizlastberechnung plausibilisieren."
          , konfidenz_score := 0.86 } ]
      else []
    else []

/-- The generator-type checks of evaluate: the heat-pump COP guard
(kg420_wp_001) or the boiler-efficiency guard (kg420_kessel_001), selected on
the lowercased generator type. -/
def generatorTypBefunde (p : Kg420Params) (generator : HeizGenerator) : List checks.Finding :=
  let gen_type := pyToLower (generator.typ.getD "")
  if gen_type == "waermepumpe" then
    let cop := floatOr generator.cop generator.cop_scop
    checks.guard (noneOrGe cop p.cop_min)
      (.thunk fun _ =>
        .single
          { id := "kg420_wp_001"
          , kategorie := "technisch"
          , prioritaet := "mittel"
          , titel := "COP der Wärmepumpe zu niedrig"
          , beschreibung :=
              "Der dokumentierte COP/SCOP beträgt " ++ optFloatStr cop
                ++ " und liegt unter dem Zielwert von " ++ pyFloatRepr p.cop_min
                ++ " für effiziente Wärmepumpen."
          , gewerk := GEWERK
          , norm_referenz := some "GEG §71"
          , empfehlung := some "Geräteauswahl prüfen oder Systemtemperaturen senken."
          , konfidenz_score := 0.8 })
  else if gen_type == "gaskessel" then
    let eta := generator.wirkungsgrad
    checks.guard (noneOrGe eta p.boiler_efficiency_min)
      (.thunk fun _ =>
        .single
          { id := "kg420_kessel_001"
          , kategorie := "technisch"
          , prioritaet := "hoch"
          , titel := "Wirkungsgrad des Kessels zu gering"
          , beschreibung :=
              "Der angegebene Kesselwirkungsgrad liegt bei " ++ checks.pct eta
                ++ " und unterschreitet den Mindestwert von "
                ++ checks.pct (some p.boiler_efficiency_min) ++ "."
          , gewerk := GEWERK
          , norm_referenz := some "GEG §62"
          , empfehlung := some "Brennwerttechnik einsetzen oder Wirkungsgradnachweis erbringen."
          , konfidenz_score := 0.87 })
  else []

/-- evaluate of checks/kg420_heating.py: the checks in source order, each
block embedded by the definition it is named after. -/
def evaluate (context : Context) : List checks.Finding :=
  let p := PARAMS_kg420
  let projekt_typ := truthyOrStr context.projekt_typ "buerogebaeude"
  let range_data := rangeData p projekt_typ
  let total_load := totalLoad context
  noRoomsBefunde context.rooms
    ++ context.rooms.flatMap (roomBefunde projekt_typ range_data)
    ++ vorlaufBefunde p context.system.supply_temperature
    ++ ruecklaufBefunde p context.system.return_temperature
    ++ deltaTBefunde p context.system.supply_temperature context.system.return_temperature
    ++ druckBefunde p context.system.pressure
    ++ hydraulikBefunde p context.system
    ++ komponentenBefunde context.system
    ++ erzeugerBefunde p context.generator.leistung total_load
    ++ generatorTypBefunde p context.generator

end kg420_heating

namespace kg440_electrical

/-- One entry of context["stromkreise"]: raw name/id strings and the float
conversions of the three numeric fields. -/
structure Stromkreis where
  name : Option String
  id : Option String
  voltage_drop_percent : Option ℚ
  diversity_factor : Option ℚ
  reserve_percent : Option ℚ
deriving DecidableEq, Repr

/-- One entry of context["beleuchtung"]. -/
structure Leuchte where
  id : Option String
  name : Option String
  flaeche : Option ℚ
  leistung : Option ℚ
  nutzung : Option String
deriving DecidableEq, Repr

/-- One entry of context["verbraucher"]: the rendered `bereich` value and
the truthiness of `usv_erforderlich`. -/
structure Verbraucher where
  bereich : Option String
  usv_erforderlich : Bool
deriving DecidableEq, Repr

/-- The electrical context consumed by kg440_electrical.evaluate;
`notbeleuchtung` holds the truthiness of context["notbeleuchtung"]. -/
structure Context where
  projekt_typ : Option String
  stromkreise : List Stromkreis
  beleuchtung : List Leuchte
  verbraucher : List Verbraucher
  notbeleuchtung : Bool
deriving DecidableEq, Repr

/-- GEWERK of checks/kg440_electrical.py. -/
def GEWERK : String := "kg440_elektro"

/-- The circuit display name: `circuit.get("name") or circuit.get("id") or
"Stromkreis"` (truthiness chain). -/
def kreisName (circuit : Stromkreis) : String :=
  truthyOrStr circuit.name (truthyOrStr circuit.id "Stromkreis")

/-- The no-circuit-data guard of evaluate (Finding kg440_0001). -/
def noKreiseBefunde (circuits : List Stromkreis) : List checks.Finding :=
  checks.guard (!circuits.isEmpty)
    (.thunk fun _ =>
      .single
        { id := "kg440_0001"
        , kategorie := "technisch"
        , prioritaet := "mittel"
        , titel := "Keine Stromkreise dokumentiert"
        , beschreibung := "Es liegen keine auswertbaren Daten zu Stromkreisen oder Lastbereichen vor."
        , gewerk := GEWERK
        , empfehlung := some "Lastberechnung und Stromkreislisten ergänzen."
        , konfidenz_score := 0.5 })

/-- The voltage-drop check of the per-circuit loop of evaluate. -/
def spannungBefunde (p : Kg440Params) (circuit : Stromkreis) : List checks.Finding :=
  let name := kreisName circuit
  match circuit.voltage_drop_percent with
  | none => []
  | some drop =>
    if drop > p.voltage_drop_max_percent then
      [ { id := "kg440_" ++ name ++ "_spannung"
        , kategorie := "technisch"
        , prioritaet := "hoch"
        , titel := "Spannungsfall überschreitet Grenzwert"
        , beschreibung :=
            "Der berechnete Spannungsfall von " ++ fmtFixed 1 drop ++ "% im Stromkreis "
              ++ name ++ " überschreitet den Grenzwert von "
              ++ pyFloatRepr p.voltage_drop_max_percent ++ "% gemäß DIN VDE 0100-520."
        , gewerk := GEWERK
        , norm_referenz := some "DIN VDE 0100-520"
        , empfehlung := some "Leiterquerschnitt erhöhen oder Leitungslänge reduzieren."
        , konfidenz_score := 0.82 } ]
    else []

/-- The diversity-factor range check of the per-circuit loop of evaluate. -/
def diversityBefunde (p : Kg440Params) (circuit : Stromkreis) : List checks.Finding :=
  let name := kreisName circuit
  match circuit.diversity_factor with
  | none => []
  | some diversity =>
    if !(p.diversity_factor_range.1 ≤ diversity ∧ diversity ≤ p.diversity_factor_range.2) then
      [ { id := "kg440_" ++ name ++ "_diversity"
        , kategorie := "technisch"
        , prioritaet := "mittel"
        , titel := "Gleichzeitigkeitsfaktor außerhalb Erfahrungswert"
        , beschreibung :=
            "Für " ++ name ++ " ist ein Gleichzeitigkeitsfaktor von " ++ fmtFixed 2 diversity
              ++ " angesetzt. Erwarteter Bereich: " ++ fmtFixed 2 p.diversity_factor_range.1
              ++ "–" ++ fmtFixed 2 p.diversity_factor_range.2 ++ "."
        , gewerk := GEWERK
        , norm_referenz := some "DIN 18015"
        , empfehlung := some "Lastannahmen überprüfen und dokumentieren."
        , konfidenz_score := 0.7 } ]
    else []

/-- The reserve check of the per-circuit loop of evaluate. -/
def reserveBefunde (circuit : Stromkreis) : List checks.Finding :=
  let name := kreisName circuit
  match circuit.reserve_percent with
  | none => []
  | some reserve =>
    if reserve < 10 then
      [ { id := "kg440_" ++ name ++ "_reserve"
        , kategorie := "technisch"
        , prioritaet := "niedrig"
        , titel := "Geringe Leistungsreserve"
        , beschreibung :=
            "Im Stromkreis " ++ name ++ " verbleibt nur eine Reserve von " ++ fmtFixed 1 reserve
              ++ "%. Empfehlung: mindestens 10% für Erweiterungen vorsehen."
        , gewerk := GEWERK
        , empfehlung := some "Stromkreise bündeln oder Trafoleistung erhöhen."
        , konfidenz_score := 0.65 } ]
    else []

/-- The per-circuit loop body of evaluate: the three checks in source order. -/
def kreisBefunde (p : Kg440Params) (circuit : Stromkreis) : List checks.Finding :=
  spannungBefunde p circuit ++ diversityBefunde p circuit ++ reserveBefunde circuit

/-- The lighting-power-density check of evaluate, per zone (the source wraps
the zone loop in `if lighting:`, which is equivalent over an empty list). -/
def zoneBefunde (p : Kg440Params) (projekt_typ : String) (zone : Leuchte) : List checks.Finding :=
  let nutzung := truthyOrStr zone.nutzung projekt_typ
  let limit := lookupStr p.lighting_power_density nutzung
  match zone.flaeche, zone.leistung, limit with
  | some area, some power, some lim =>
    if area ≠ 0 ∧ power ≠ 0 ∧ lim ≠ 0 ∧ area > 0 then
      let density := power / area
      if density > lim then
        [ { id := "kg440_beleuchtung_" ++ (zone.id.getD "zone")
          , kategorie := "technisch"
          , prioritaet := "mittel"
          , titel := "Lichtleistungsdichte über Richtwert"
          , beschreibung :=
              "Für Bereich " ++ (zone.name.getD "unbekannt")
                ++ " beträgt die Lichtleistungsdichte " ++ fmtFixed 1 density
                ++ " W/m² und überschreitet den Richtwert " ++ pyFloatRepr lim
                ++ " W/m² gemäß DIN EN 12464-1."
          , gewerk := GEWERK
          , norm_referenz := some "DIN EN 12464-1"
          , empfehlung := some "Leuchtenauswahl optimieren oder Tageslichtnutzung berücksichtigen."
          , konfidenz_score := 0.73 } ]
      else []
    else []
  | _, _, _ => []

/-- The emergency-lighting guard of evaluate (kg440_notbeleuchtung). -/
def notbeleuchtungBefunde (p : Kg440Params) (projekt_typ : String) (emergency_available : Bool) :
    List checks.Finding :=
  let emergency_required := p.emergency_lighting_required.contains projekt_typ
  checks.guard (!emergency_required || emergency_available)
    (.thunk fun _ =>
      .single
        { id := "kg440_notbeleuchtung"
        , kategorie := "technisch"
        , prioritaet := "hoch"
        , titel := "Notbeleuchtung nicht nachgewiesen"
        , beschreibung :=
            "Für den Gebäudetyp ist eine Sicherheitsbeleuchtung nach DIN EN 1838 erforderlich, sie wird jedoch nicht dokumentiert."
        , gewerk := GEWERK
        , norm_referenz := some "DIN EN 1838"
        , empfehlung := some "Notbeleuchtungsanlage planen und Fluchtwegkennzeichnung ergänzen."
        , konfidenz_score := 0.84 })

/-- The UPS guards of evaluate: the set of areas requiring a UPS is rendered
with `str` and each sensitive area of the catalog is guarded on membership. -/
def usvBefunde (p : Kg440Params) (consumers : List Verbraucher) : List checks.Finding :=
  let ups_zonen := (consumers.filter (fun item => item.usv_erforderlich)).map
    (fun item => optStr item.bereich)
  p.ups_required_for.flatMap (fun sensitive =>
    checks.guard (ups_zonen.contains sensitive)
      (.thunk fun _ =>
        .single
          { id := "kg440_usv_" ++ sensitive
          , kategorie := "technisch"
          , prioritaet := "hoch"
          , titel := "USV-Versorgung fehlt"
          , beschreibung :=
              "Für den Bereich " ++ sensitive
                ++ " ist eine unterbrechungsfreie Stromversorgung erforderlich, jedoch nicht nachgewiesen."
          , gewerk := GEWERK
          , empfehlung := some "USV-Anlage dimensionieren und Schaltplan ergänzen."
          , konfidenz_score := 0.8 }))

/-- evaluate of checks/kg440_electrical.py: the checks in source order. -/
def evaluate (context : Context) : List checks.Finding :=
  let p := PARAMS_kg440
  let projekt_typ := truthyOrStr context.projekt_typ "buerogebaeude"
  noKreiseBefunde context.stromkreise
    ++ context.stromkreise.flatMap (kreisBefunde p)
    ++ context.beleuchtung.flatMap (zoneBefunde p projekt_typ)
    ++ notbeleuchtungBefunde p projekt_typ context.notbeleuchtung
    ++ usvBefunde p context.verbraucher

end kg440_electrical

/-- CheckEngine.run of tga_pipeline.py: a failing evaluator (modelled as an
`Except`-valued function) degrades to zero findings instead of propagating;
the result type `List Finding` itself witnesses that no exception escapes. -/
def checkEngineRun {Ctx : Type} (evaluator : Ctx → Except String (List checks.Finding))
    (context : Ctx) : List checks.Finding :=
  match evaluator context with
  | .error _ => []
  | .ok findings => findings

namespace coordinator

/-- GewerkeType of tga_coordinator.py: the seven KG400 trade codes. -/
inductive GewerkeType where
  | KG410_SANITAER
  | KG420_HEIZUNG
  | KG430_LUEFTUNG
  | KG440_ELEKTRO
  | KG450_KOMMUNIKATION
  | KG474_FEUERLOESCHUNG
  | KG480_AUTOMATION
deriving DecidableEq, Repr

/-- The enum's string value. -/
def GewerkeType.value : GewerkeType → String
  | .KG410_SANITAER => "kg410_sanitaer"
  | .KG420_HEIZUNG => "kg420_heizung"
  | .KG430_LUEFTUNG => "kg430_lueftung"
  | .KG440_ELEKTRO => "kg440_elektro"
  | .KG450_KOMMUNIKATION => "kg450_kommunikation"
  | .KG474_FEUERLOESCHUNG => "kg474_feuerloeschung"
  | .KG480_AUTOMATION => "kg480_automation"

/-- Finding of tga_coordinator.py (the coordinator's dataclass, field order
and defaults as in the source). -/
structure Finding where
  id : String
  document_id : String
  gewerk : GewerkeType
  kategorie : String
  prioritaet : String
  titel : String
  beschreibung : String
  agent_quelle : String
  konfidenz_score : ℚ := 0.0
  norm_referenz : Option String := none
  plan_referenz : Option String := none
  empfehlung : Option String := none
deriving DecidableEq, Repr

/-- A normalized bounding box as produced by _normiere_bbox of
_pruefe_kollisionen: all six coordinates present, `min ≤ max` on each axis
after the source's swap, missing vertical extent collapsed to
`z_min = z_max = 0`.  The key-priority normalization itself is elided; the
collision logic only sees normalized boxes. -/
structure BBox where
  x_min : ℚ
  x_max : ℚ
  y_min : ℚ
  y_max : ℚ
  z_min : ℚ
  z_max : ℚ
deriving DecidableEq, Repr

/-- One collected entry of geometrie_eintraege in _pruefe_kollisionen: the
owning document's id and trade, the element's raw id/name strings, the
normalized box, the resolved level and plan reference. -/
structure GeometrieEintrag where
  dokument_id : String
  gewerk : GewerkeType
  element_id : Option String
  element_name : Option String
  bbox : BBox
  level : Option String
  plan_ref : String
deriving DecidableEq, Repr

/-- The _axis_overlap helper of _ueberlappung: the overlapping interval, or
`None` when the boxes do not strictly overlap on the axis. -/
def axisOverlap (min_a max_a min_b max_b : ℚ) : Option (ℚ × ℚ) :=
  let start := max min_a min_b
  let stop := min max_a max_b
  if stop ≤ start then none else some (start, stop)

/-- The _ueberlappung helper of _pruefe_kollisionen: the (x, y, z) overlap
extents, or `None`.  A missing z overlap is tolerated exactly when both boxes
are the degenerate 2-D fallback `z_min = z_max = 0`. -/
def ueberlappung (a b : BBox) : Option (ℚ × ℚ × ℚ) :=
  match axisOverlap a.x_min a.x_max b.x_min b.x_max,
        axisOverlap a.y_min a.y_max b.y_min b.y_max with
  | some x_overlap, some y_overlap =>
    (match axisOverlap a.z_min a.z_max b.z_min b.z_max with
     | some z_overlap =>
       some (x_overlap.2 - x_overlap.1, y_overlap.2 - y_overlap.1, z_overlap.2 - z_overlap.1)
     | none =>
       if a.z_max = a.z_min ∧ a.z_min = 0 ∧ b.z_max = b.z_min ∧ b.z_min = 0 then
         some (x_overlap.2 - x_overlap.1, y_overlap.2 - y_overlap.1, 0)
       else none)
  | _, _ => none

/-- The level skip of the collision loop: both entries carry a truthy level
and the lowercased levels differ. -/
def levelsVerschieden (level_a level_b : Option String) : Bool :=
  match level_a, level_b with
  | some a, some b => !(a == "") && !(b == "") && !(pyToLower a == pyToLower b)
  | _, _ => false

/-- One iteration of the pair loop of _pruefe_kollisionen: the collision
Finding for an ordered pair of entries, or `None` when the pair is skipped. -/
def kollisionsBefund (a b : GeometrieEintrag) : Option Finding :=
  if a.gewerk = b.gewerk then none
  else if levelsVerschieden a.level b.level then none
  else
    match ueberlappung a.bbox b.bbox with
    | none => none
    | some overlap =>
      let flaechenueberdeckung := overlap.1 * overlap.2.1
      if flaechenueberdeckung ≤ 0 then none
      else
        let beschreibung :=
          "Element " ++ optStr (pyOr a.element_id a.element_name) ++ " (" ++ a.gewerk.value
            ++ ") überlappt mit " ++ optStr (pyOr b.element_id b.element_name)
            ++ " (" ++ b.gewerk.value ++ "). Überdeckung: "
            ++ fmtFixed 2 flaechenueberdeckung ++ " m²"
        let beschreibung :=
          if overlap.2.2 > 0 then
            beschreibung ++ " bei einer vertikalen Überschneidung von "
              ++ fmtFixed 2 overlap.2.2 ++ " m"
          else beschreibung
        some
          { id :=
              "kollision_" ++ a.dokument_id ++ "_" ++ optStr a.element_id ++ "_"
                ++ b.dokument_id ++ "_" ++ optStr b.element_id
          , document_id := a.dokument_id
          , gewerk := a.gewerk
          , kategorie := "koordination"
          , prioritaet := "hoch"
          , titel := "Geometrische Kollision zwischen Gewerken"
          , beschreibung := beschreibung
          , plan_referenz := some (a.plan_ref ++ " / " ++ b.plan_ref)
          , empfehlung := some "Koordinationsmodell prüfen und Höhenlage abstimmen"
          , agent_quelle := "coordination_agent"
          , konfidenz_score := 0.85 }

/-- The double loop of _pruefe_kollisionen over the collected entries: each
entry against every later entry, in order. -/
def pruefeKollisionen : List GeometrieEintrag → List Finding
  | [] => []
  | a :: rest => rest.filterMap (kollisionsBefund a) ++ pruefeKollisionen rest

/-- All ordered pairs (earlier, later) of a list, in loop order. -/
def orderedPairs {α : Type} : List α → List (α × α)
  | [] => []
  | a :: rest => rest.map (fun b => (a, b)) ++ orderedPairs rest

/-- One collected entry of elektro_schnittstellen in _pruefe_schnittstellen
(the map value under the lowercased reference key). -/
structure ElektroSchnittstelle where
  kapazitaet : Option ℚ
  plan_ref : String
  dokument_id : String
deriving DecidableEq, Repr

/-- One collected entry of heizung_schnittstellen in _pruefe_schnittstellen:
the owning heating document, the parsed demand, the stripped reference
string and the resolved plan reference. -/
structure HeizungsAnschluss where
  dokument_id : String
  gewerk : GewerkeType
  leistung : Option ℚ
  versorgung : String
  plan_ref : String
deriving DecidableEq, Repr

/-- The per-requirement body of the reconciliation loop of
_pruefe_schnittstellen; `elektro` is the finished supply map, keyed by the
lowercased reference strings (the collection phase lowercases on insert). -/
def schnittstellenBefunde (elektro : List (String × ElektroSchnittstelle))
    (entry : HeizungsAnschluss) : List Finding :=
  let versorgung := pyToLower entry.versorgung
  if versorgung == "" then
    [ { id := "schnittstelle_" ++ entry.dokument_id ++ "_ohne_zuordnung"
      , document_id := entry.dokument_id
      , gewerk := entry.gewerk
      , kategorie := "koordination"
      , prioritaet := "mittel"
      , titel := "Heizungsanschluss ohne Elektro-Zuordnung"
      , beschreibung :=
          "Für einen Heizungsanschluss konnte kein zugehöriger Elektro-Stromkreis identifiziert werden."
      , empfehlung := some "Versorgungskreis in Heizungs- und Elektroplanung eindeutig referenzieren"
      , plan_referenz := some entry.plan_ref
      , agent_quelle := "coordination_agent"
      , konfidenz_score := 0.75 } ]
  else
    match lookupStr elektro versorgung with
    | none =>
      [ { id := "schnittstelle_" ++ entry.dokument_id ++ "_" ++ versorgung ++ "_fehlt"
        , document_id := entry.dokument_id
        , gewerk := entry.gewerk
        , kategorie := "koordination"
        , prioritaet := "mittel"
        , titel := "Versorgungskreis in Elektroplanung fehlt"
        , beschreibung :=
            "Für den Heizungsanschluss \x27" ++ versorgung
              ++ "\x27 konnte kein entsprechender Elektro-Stromkreis gefunden werden."
        , empfehlung := some "Heizungs- und Elektroplanung auf Konsistenz prüfen"
        , plan_referenz := some entry.plan_ref
        , agent_quelle := "coordination_agent"
        , konfidenz_score := 0.8 } ]
    | some elektroEintrag =>
      match entry.leistung with
      | none => []
      | some leistung =>
        if leistung ≤ 0 then []
        else
          match elektroEintrag.kapazitaet with
          | none =>
            [ { id := "schnittstelle_" ++ entry.dokument_id ++ "_" ++ versorgung ++ "_unbekannt"
              , document_id := entry.dokument_id
              , gewerk := entry.gewerk
              , kategorie := "koordination"
              , prioritaet := "mittel"
              , titel := "Fehlende Kapazitätsangabe Elektro"
              , beschreibung :=
                  "Für den Elektro-Stromkreis \x27" ++ versorgung
                    ++ "\x27 ist keine Kapazität dokumentiert; Heizlast " ++ fmtFixed 1 leistung
                    ++ " kW kann nicht verifiziert werden."
              , empfehlung := some "Kapazität in Elektroplanung nachtragen"
              , plan_referenz := some (entry.plan_ref ++ " / " ++ elektroEintrag.plan_ref)
              , agent_quelle := "coordination_agent"
              , konfidenz_score := 0.7 } ]
          | some kapazitaet =>
            if kapazitaet + 1 / 1000000 < leistung then
              let differenz := leistung - kapazitaet
              [ { id :=
                    "schnittstelle_" ++ entry.dokument_id ++ "_" ++ versorgung
                      ++ "_unterdimensioniert"
                , document_id := entry.dokument_id
                , gewerk := entry.gewerk
                , kategorie := "koordination"
                , prioritaet := "hoch"
                , titel := "Elektrische Leistung für Wärmeerzeuger unzureichend"
                , beschreibung :=
                    "Der zugewiesene Elektro-Stromkreis \x27" ++ versorgung ++ "\x27 stellt "
                      ++ fmtFixed 1 kapazitaet ++ " kW bereit, benötigt werden jedoch "
                      ++ fmtFixed 1 leistung ++ " kW. Differenz: " ++ fmtFixed 1 differenz
                      ++ " kW."
                , empfehlung := some "Stromkreisleistung erhöhen oder zusätzlichen Kreis vorsehen"
                , plan_referenz := some (entry.plan_ref ++ " / " ++ elektroEintrag.plan_ref)
                , agent_quelle := "coordination_agent"
                , konfidenz_score := 0.9 } ]
            else []

/-- The reconciliation loop of _pruefe_schnittstellen over all collected
heating requirements. -/
def pruefeSchnittstellen (elektro : List (String × ElektroSchnittstelle))
    (entries : List HeizungsAnschluss) : List Finding :=
  entries.flatMap (schnittstellenBefunde elektro)

end coordinator

namespace coordinator

/-- One collected entry of anforderungen in _pruefe_sud_planung: id non-empty
after strip (empty ids are skipped at collection), dimensions and position as
parsed by _parse_dimensions / _parse_position. -/
structure SudAnforderung where
  id : String
  dokument_id : String
  gewerk : GewerkeType
  plan_ref : String
  geschoss : Option String
  dimensionen : Option (ℚ × ℚ)
  position : Option (ℚ × ℚ)
deriving DecidableEq, Repr

/-- One collected entry of bestaetigungen in _pruefe_sud_planung (the list
value under the lowercased reference id, in document iteration order). -/
structure SudBestaetigung where
  plan_ref : String
  geschoss : Option String
  dimensionen : Option (ℚ × ℚ)
  position : Option (ℚ × ℚ)
  status : Option String
deriving DecidableEq, Repr

/-- The level comparison of _pruefe_sud_planung: both sides truthy and the
lowercased renderings differ. -/
def geschossKonflikt (anforderung : SudAnforderung) (bestaetigung : SudBestaetigung) : Bool :=
  strTruthy anforderung.geschoss && strTruthy bestaetigung.geschoss
    && !(pyToLower (optStr anforderung.geschoss) == pyToLower (optStr bestaetigung.geschoss))

/-- The missing-confirmation Finding of _pruefe_sud_planung. -/
def sudFehlendBefund (anforderung : SudAnforderung) : Finding :=
  { id := "sud_" ++ anforderung.dokument_id ++ "_" ++ pyToLower anforderung.id ++ "_fehlend"
  , document_id := anforderung.dokument_id
  , gewerk := anforderung.gewerk
  , kategorie := "koordination"
  , prioritaet := "hoch"
  , titel := "SuD-Durchbruch nicht bestätigt"
  , beschreibung :=
      "Für die angeforderte Öffnung liegt kein bestätigter Schlitz- und Durchbruchsplan vor."
  , empfehlung := some "Öffnung in SuD-Plan aufnehmen und mit Tragwerksplanung abstimmen"
  , plan_referenz := some anforderung.plan_ref
  , agent_quelle := "coordination_agent"
  , konfidenz_score := 0.85 }

/-- The wrong-level Finding of _pruefe_sud_planung. -/
def sudGeschossBefund (anforderung : SudAnforderung) (bestaetigung : SudBestaetigung) : Finding :=
  { id := "sud_" ++ anforderung.dokument_id ++ "_" ++ pyToLower anforderung.id ++ "_geschoss"
  , document_id := anforderung.dokument_id
  , gewerk := anforderung.gewerk
  , kategorie := "koordination"
  , prioritaet := "mittel"
  , titel := "SuD-Durchbruch falsches Geschoss"
  , beschreibung :=
      "Die bestätigte Öffnung befindet sich in einem anderen Geschoss als angefordert."
  , empfehlung := some "Geschosslage zwischen Planungsteams abstimmen"
  , plan_referenz := some (anforderung.plan_ref ++ " / " ++ bestaetigung.plan_ref)
  , agent_quelle := "coordination_agent"
  , konfidenz_score := 0.75 }

/-- The dimension-mismatch Finding of _pruefe_sud_planung, quoting the
requested and confirmed dimension pairs. -/
def sudAbmessungBefund (anforderung : SudAnforderung) (bestaetigung : SudBestaetigung)
    (soll_dim ist_dim : ℚ × ℚ) : Finding :=
  { id := "sud_" ++ anforderung.dokument_id ++ "_" ++ pyToLower anforderung.id ++ "_abmessung"
  , document_id := anforderung.dokument_id
  , gewerk := anforderung.gewerk
  , kategorie := "koordination"
  , prioritaet := "mittel"
  , titel := "SuD-Abmessungen weichen ab"
  , beschreibung :=
      "Angefordert " ++ fmtFixed 2 soll_dim.1 ++ " x " ++ fmtFixed 2 soll_dim.2
        ++ " m, bestätigt " ++ fmtFixed 2 ist_dim.1 ++ " x " ++ fmtFixed 2 ist_dim.2 ++ " m."
  , empfehlung := some "Abmessungen zwischen TGA und Tragwerk abstimmen"
  , plan_referenz := some (anforderung.plan_ref ++ " / " ++ bestaetigung.plan_ref)
  , agent_quelle := "coordination_agent"
  , konfidenz_score := 0.8 }

/-- The position-mismatch Finding of _pruefe_sud_planung. -/
def sudLageBefund (anforderung : SudAnforderung) (bestaetigung : SudBestaetigung)
    (delta_x delta_y : ℚ) : Finding :=
  { id := "sud_" ++ anforderung.dokument_id ++ "_" ++ pyToLower anforderung.id ++ "_lage"
  , document_id := anforderung.dokument_id
  , gewerk := anforderung.gewerk
  , kategorie := "koordination"
  , prioritaet := "mittel"
  , titel := "SuD-Lageabweichung"
  , beschreibung :=
      "Lageabweichung von " ++ fmtFixed 2 delta_x ++ " m in X und " ++ fmtFixed 2 delta_y
        ++ " m in Y festgestellt."
  , empfehlung := some "Lage in Koordinationsplan korrigieren"
  , plan_referenz := some (anforderung.plan_ref ++ " / " ++ bestaetigung.plan_ref)
  , agent_quelle := "coordination_agent"
  , konfidenz_score := 0.78 }

/-- The position comparison of _pruefe_sud_planung, reached when neither the
level nor the dimension check reported. -/
def sudPositionsPruefung (anforderung : SudAnforderung) (bestaetigung : SudBestaetigung) :
    List Finding :=
  match anforderung.position, bestaetigung.position with
  | some soll_pos, some ist_pos =>
    let delta_x := |soll_pos.1 - ist_pos.1|
    let delta_y := |soll_pos.2 - ist_pos.2|
    if delta_x > 0.1 ∨ delta_y > 0.1 then
      [sudLageBefund anforderung bestaetigung delta_x delta_y]
    else []
  | _, _ => []

/-- The per-requirement body of _pruefe_sud_planung against the list of
confirmations matching the requirement's lowercased id: no confirmation
reports "not confirmed"; otherwise the first confirmation is compared, and
the first failing check in the order level, dimension, position reports. -/
def sudBefunde (anforderung : SudAnforderung) (passende : List SudBestaetigung) :
    List Finding :=
  match passende with
  | [] => [sudFehlendBefund anforderung]
  | bestaetigung :: _ =>
    if geschossKonflikt anforderung bestaetigung then
      [sudGeschossBefund anforderung bestaetigung]
    else
      match anforderung.dimensionen, bestaetigung.dimensionen with
      | some soll_dim, some ist_dim =>
        let delta_breite := |soll_dim.1 - ist_dim.1|
        let delta_hoehe := |soll_dim.2 - ist_dim.2|
        let toleranz := max 0.02 (0.1 * max soll_dim.1 soll_dim.2)
        if delta_breite > toleranz ∨ delta_hoehe > toleranz then
          [sudAbmessungBefund anforderung bestaetigung soll_dim ist_dim]
        else sudPositionsPruefung anforderung bestaetigung
      | _, _ => sudPositionsPruefung anforderung bestaetigung

/-- The requirement loop of _pruefe_sud_planung; `bestaetigungen` is the
finished confirmation map, keyed by lowercased ids. -/
def pruefeSudPlanung (anforderungen : List SudAnforderung)
    (bestaetigungen : List (String × List SudBestaetigung)) : List Finding :=
  anforderungen.flatMap (fun anforderung =>
    sudBefunde anforderung ((lookupStr bestaetigungen (pyToLower anforderung.id)).getD []))

/-- The priority key map of _bewerte_befunde, as the partial dict it is in
the source: priorities outside the three-valued set have no rank (the Python
lookup raises KeyError there). -/
def prioWert (prioritaet : String) : Option Nat :=
  List.lookup prioritaet [("hoch", 3), ("mittel", 2), ("niedrig", 1)]

/-- Total rank used by the sort embedding; on the three-valued set it is the
source's key, outside it the embedding totalizes with 0 where the source
would raise (the sorting claim only concerns the three-valued set). -/
def prioNum (f : Finding) : Nat :=
  (prioWert f.prioritaet).getD 0

/-- The descending lexicographic comparison of _bewerte_befunde's sort key
(priority rank, then confidence), reversed. -/
def bewertungsLe (f g : Finding) : Bool :=
  decide (prioNum g < prioNum f)
    || (prioNum f == prioNum g && decide (g.konfidenz_score ≤ f.konfidenz_score))

/-- _bewerte_befunde of tga_coordinator.py: a stable sort of the findings by
(priority desc, confidence desc). -/
def bewerteBefunde (befunde : List Finding) : List Finding :=
  befunde.mergeSort bewertungsLe

end coordinator

namespace coordinator

/-- A Python value appearing as legend data in document metadata: a string, a
list, a dict with string keys, or another scalar carrying only its
truthiness (numbers, booleans, None). -/
inductive LegendWert where
  | str (s : String)
  | list (xs : List LegendWert)
  | dict (kvs : List (String × LegendWert))
  | scalar (truthy : Bool)

/-- Python truthiness of a legend value. -/
def legTruthy : LegendWert → Bool
  | .str s => !(s == "")
  | .list xs => !xs.isEmpty
  | .dict kvs => !kvs.isEmpty
  | .scalar truthy => truthy

/-- Python truthiness of an optional legend value. -/
def legOptTruthy : Option LegendWert → Bool
  | none => false
  | some v => legTruthy v

/-- Python's `isinstance(v, Iterable)`: strings, lists and dicts are
iterable, other scalars are not. -/
def legIsIterable : LegendWert → Bool
  | .str _ => true
  | .list _ => true
  | .dict _ => true
  | .scalar _ => false

/-- Python iteration over a legend value: a string yields its characters as
one-character strings, a dict yields its keys. -/
def legElems : LegendWert → List LegendWert
  | .str s => s.data.map (fun c => .str (String.mk [c]))
  | .list xs => xs
  | .dict kvs => kvs.map (fun kv => .str kv.1)
  | .scalar _ => []

/-- The _add_term closure of _collect_legend_terms: a string value is
stripped and lowercased and kept when non-empty; other values are ignored. -/
def addTerm : LegendWert → List String
  | .str s =>
    let normalized := pyToLower s.trim
    if normalized == "" then [] else [normalized]
  | _ => []

/-- One entry of an iterated collection in _collect_legend_terms: a mapping
contributes its values through _add_term, anything else is passed to
_add_term itself. -/
def termsOfEntry : LegendWert → List String
  | .dict kvs => kvs.flatMap (fun kv => addTerm kv.2)
  | entry => addTerm entry

/-- The fallback over a dict's values in _collect_legend_terms (no usable
"symbole" entry): non-string iterable values are iterated entry-wise, other
values go through _add_term directly. -/
def termsOfDictValues (kvs : List (String × LegendWert)) : List String :=
  kvs.flatMap (fun kv =>
    let val := kv.2
    if legIsIterable val && !(match val with | .str _ => true | _ => false) then
      (legElems val).flatMap termsOfEntry
    else addTerm val)

/-- _collect_legend_terms of tga_coordinator.py: collects the lowercased
non-empty string terms of the legend data. -/
def collectLegendTerms (legend_data : LegendWert) : List String :=
  match legend_data with
  | .dict kvs =>
    (match lookupStr kvs "symbole" with
     | some symbole =>
       if legIsIterable symbole then (legElems symbole).flatMap termsOfEntry
       else termsOfDictValues kvs
     | none => termsOfDictValues kvs)
  | .list xs => xs.flatMap termsOfEntry
  | .str _ => []
  | .scalar _ => []

/-- _MANDATORY_LEGEND_KEYWORDS of TGACoordinator (Python sets, modelled as
lists in literal order; the check sorts before reporting). -/
def MANDATORY_LEGEND_KEYWORDS : GewerkeType → List String
  | .KG410_SANITAER => ["kaltwasser", "warmwasser", "abwasser"]
  | .KG420_HEIZUNG => ["vorlauf", "rücklauf", "heizkörper"]
  | .KG430_LUEFTUNG => ["zuluft", "abluft", "fortluft"]
  | .KG440_ELEKTRO => ["steckdose", "beleuchtung", "hauptverteilung"]
  | .KG450_KOMMUNIKATION => ["daten", "kommunikation", "netzwerk"]
  | .KG474_FEUERLOESCHUNG => ["sprinkler", "hydrant", "brandmelder"]
  | .KG480_AUTOMATION => ["sensor", "aktor", "steuerung"]

/-- The legend-unavailable advisory Finding of _pruefe_vdi_6026_konformitaet
(note the priority "hinweis", a value outside hoch/mittel/niedrig). -/
def legendHintBefund (dokument_id : String) (gewerk : GewerkeType) (filename : String)
    (beschreibung empfehlung : String) : Finding :=
  { id := "formal_" ++ dokument_id ++ "_legend_hint"
  , document_id := dokument_id
  , gewerk := gewerk
  , kategorie := "formal"
  , prioritaet := "hinweis"
  , titel := "Legendenprüfung nicht möglich"
  , beschreibung := beschreibung
  , norm_referenz := some "VDI 6026"
  , plan_referenz := some filename
  , empfehlung := some empfehlung
  , agent_quelle := "formal_compliance_agent"
  , konfidenz_score := 0.2 }

/-- _pruefe_vdi_6026_konformitaet of tga_coordinator.py for one document.
`metaLegende` is the metadata's "legende" entry, `parserLegende` the parser's
extraction result used when the former is falsy (the caching write-back into
the metadata is state the embedding elides). -/
def pruefeVdi6026Konformitaet (document_type : String) (gewerk : GewerkeType)
    (dokument_id : String) (filename : String) (metaLegende parserLegende : Option LegendWert) :
    List Finding :=
  if !(document_type == "plan") then []
  else
    let legend_data := if legOptTruthy metaLegende then metaLegende else parserLegende
    let mandatory_keywords := MANDATORY_LEGEND_KEYWORDS gewerk
    if mandatory_keywords.isEmpty then []
    else if !legOptTruthy legend_data then
      [legendHintBefund dokument_id gewerk filename
        "Für den Plan konnten keine Legendendaten extrahiert werden; bitte Sichtprüfung durchführen."
        "Legende bereitstellen oder Scan-Qualität verbessern"]
    else
      let legend_terms := collectLegendTerms (legend_data.getD (.scalar false))
      if legend_terms.isEmpty then
        [legendHintBefund dokument_id gewerk filename
          "Die extrahierte Legende enthält keine auswertbaren Symbole."
          "Legende prüfen und erforderliche Symbole ergänzen"]
      else
        let missing_keywords := sortStrings (mandatory_keywords.filter
          (fun keyword => !(legend_terms.any (fun term => containsSub term keyword))))
        if !missing_keywords.isEmpty then
          [ { id := "formal_" ++ dokument_id ++ "_legend_missing"
            , document_id := dokument_id
            , gewerk := gewerk
            , kategorie := "formal"
            , prioritaet := "mittel"
            , titel := "Legende unvollständig"
            , beschreibung :=
                "Folgende Pflichtsymbole fehlen in der Legende: "
                  ++ String.intercalate ", "
                    (sortStrings ((missing_keywords.map capitalizePy).dedup))
            , norm_referenz := some "VDI 6026"
            , plan_referenz := some filename
            , empfehlung := some "Legende um die fehlenden Symbole ergänzen"
            , agent_quelle := "formal_compliance_agent"
            , konfidenz_score := 0.7 } ]
        else []

end coordinator

/-- Axis overlap as the specification words it: `max(0, min(max_a, max_b) −
max(min_a, min_b))` (specification-side definition for the collision claim). -/
def overlapBetrag (min_a max_a min_b max_b : ℚ) : ℚ :=
  max 0 (min max_a max_b - max min_a min_b)

/-- Collision condition as the claim states it (specification-side, to be
compared with the source-side kollisionsBefund): different trades, not both
declaring case-insensitively differing levels, strictly positive x and y
overlaps, and a strictly positive z overlap or two 2-D-degenerate boxes. -/
def KollisionSpec (a b : coordinator.GeometrieEintrag) : Prop :=
  a.gewerk ≠ b.gewerk
  ∧ ¬(strTruthy a.level = true ∧ strTruthy b.level = true
      ∧ pyToLower (optStr a.level) ≠ pyToLower (optStr b.level))
  ∧ 0 < overlapBetrag a.bbox.x_min a.bbox.x_max b.bbox.x_min b.bbox.x_max
  ∧ 0 < overlapBetrag a.bbox.y_min a.bbox.y_max b.bbox.y_min b.bbox.y_max
  ∧ (0 < overlapBetrag a.bbox.z_min a.bbox.z_max b.bbox.z_min b.bbox.z_max
     ∨ (a.bbox.z_min = 0 ∧ a.bbox.z_max = 0 ∧ b.bbox.z_min = 0 ∧ b.bbox.z_max = 0))

def c1EintragHeizung : coordinator.GeometrieEintrag :=
  { dokument_id := "heizung-plan", gewerk := .KG420_HEIZUNG, element_id := some "H-1"
  , element_name := some "Heizungsrohr"
  , bbox := { x_min := 0, x_max := 2, y_min := 0, y_max := 2, z_min := 0, z_max := 1 }
  , level := some "EG", plan_ref := "H-01" }

def c1EintragElektro : coordinator.GeometrieEintrag :=
  { dokument_id := "elektro-plan", gewerk := .KG440_ELEKTRO, element_id := some "E-1"
  , element_name := some "Kabeltrasse"
  , bbox := { x_min := 1, x_max := 3, y_min := 1, y_max := 3, z_min := 0.5, z_max := 1.5 }
  , level := some "eg", plan_ref := "E-01" }

def c1EintragGleichesGewerk : coordinator.GeometrieEintrag :=
  { dokument_id := "heizung-plan-2", gewerk := .KG420_HEIZUNG, element_id := some "H-2"
  , element_name := some "Heizungsrohr 2"
  , bbox := { x_min := 1, x_max := 3, y_min := 1, y_max := 3, z_min := 0.5, z_max := 1.5 }
  , level := some "EG", plan_ref := "H-02" }

def c1EintragAnderesGeschoss : coordinator.GeometrieEintrag :=
  { dokument_id := "elektro-plan-2", gewerk := .KG440_ELEKTRO, element_id := some "E-2"
  , element_name := some "Kabeltrasse 2"
  , bbox := { x_min := 1, x_max := 3, y_min := 1, y_max := 3, z_min := 0.5, z_max := 1.5 }
  , level := some "OG1", plan_ref := "E-02" }

def c2Elektro15 : List (String × coordinator.ElektroSchnittstelle) :=
  [("wp-1", { kapazitaet := some 15.0, plan_ref := "E-01", dokument_id := "elektro-1" })]

def c2Elektro22 : List (String × coordinator.ElektroSchnittstelle) :=
  [("wp-1", { kapazitaet := some 22.0, plan_ref := "E-01", dokument_id := "elektro-1" })]

def c2Anschluss20 : coordinator.HeizungsAnschluss :=
  { dokument_id := "heizung-1", gewerk := .KG420_HEIZUNG, leistung := some 20.0
  , versorgung := "WP-1", plan_ref := "H-01" }

def c2Anschluss18 : coordinator.HeizungsAnschluss :=
  { dokument_id := "heizung-1", gewerk := .KG420_HEIZUNG, leistung := some 18.0
  , versorgung := "WP-1", plan_ref := "H-01" }

def c3Anforderung : coordinator.SudAnforderung :=
  { id := "D-100", dokument_id := "tga-1", gewerk := .KG420_HEIZUNG, plan_ref := "S-01"
  , geschoss := none, dimensionen := some (0.40, 0.40), position := none }

def c3BestaetigungNah : coordinator.SudBestaetigung :=
  { plan_ref := "T-01", geschoss := none, dimensionen := some (0.39, 0.41), position := none
  , status := none }

def c3BestaetigungKlein : coordinator.SudBestaetigung :=
  { plan_ref := "T-01", geschoss := none, dimensionen := some (0.30, 0.30), position := none
  , status := none }

def c4Befund (id prioritaet : String) (konfidenz : ℚ) : coordinator.Finding :=
  { id := id, document_id := "doc-4", gewerk := .KG420_HEIZUNG, kategorie := "technisch"
  , prioritaet := prioritaet, titel := "Befund", beschreibung := "Sortierbeispiel."
  , agent_quelle := "coordination_agent", konfidenz_score := konfidenz }

def c4Beispiel : List coordinator.Finding :=
  [ c4Befund "b1" "niedrig" 0.9, c4Befund "b2" "hoch" 0.5, c4Befund "b3" "mittel" 0.7
  , c4Befund "b4" "hoch" 0.8 ]

def c6Kontext : kg420_heating.Context :=
  { projekt_typ := some "buerogebaeude", rooms := []
  , total := none
  , system :=
      { supply_temperature := none, return_temperature := some 60.0, pressure := none
      , hydraulic_balancing := false, components := [] }
  , generator := { leistung := none, typ := none, cop := none, cop_scop := none
                 , wirkungsgrad := none } }

def c6Kreis : kg440_electrical.Stromkreis :=
  { name := some "SK-1", id := none, voltage_drop_percent := none
  , diversity_factor := some 0.3, reserve_percent := some 5.0 }

def c5Befund : checks.Finding :=
  { id := "demo_0001", kategorie := "technisch", prioritaet := "mittel", titel := "Demo"
  , beschreibung := "Demonstrationsbefund für den Guard-Kombinator.", gewerk := "kg420_heizung" }

def c5Produzent : Unit → checks.GuardProduced := fun _ => .single c5Befund

def c8FehlerEvaluator : Unit → Except String (List checks.Finding) :=
  fun _ => .error "Regelausführung fehlgeschlagen"

def c8OkEvaluator : Unit → Except String (List checks.Finding) :=
  fun _ => .ok [c5Befund]

def c10Anforderung : coordinator.SudAnforderung :=
  { id := "D-200", dokument_id := "tga-2", gewerk := .KG430_LUEFTUNG, plan_ref := "L-01"
  , geschoss := none, dimensionen := some (0.50, 0.50), position := none }

def c10BestaetigungFalsch : coordinator.SudBestaetigung :=
  { plan_ref := "T-02", geschoss := none, dimensionen := some (0.30, 0.30), position := none
  , status := none }

def c10BestaetigungPassend : coordinator.SudBestaetigung :=
  { plan_ref := "T-03", geschoss := none, dimensionen := some (0.50, 0.50), position := none
  , status := none }

def c7System : kg420_heating.HeizSystem :=
  { supply_temperature := some 60.0, return_temperature := some 45.0, pressure := some 2.0
  , hydraulic_balancing := true
  , components := ["wärmeerzeuger", "umwälzpumpe", "ausdehnungsgefäß", "sicherheitsventil", "manometer"] }

def c7Generator : kg420_heating.HeizGenerator :=
  { leistung := some 50.0, typ := some "gaskessel", cop := none, cop_scop := none
  , wirkungsgrad := some 0.95 }

def c7KontextOhneRaeume : kg420_heating.Context :=
  { projekt_typ := some "buerogebaeude", rooms := [], total := some 40.0
  , system := c7System, generator := c7Generator }

def c7KontextHoheLast : kg420_heating.Context :=
  { projekt_typ := some "buerogebaeude"
  , rooms := [{ name := some "Raum A", heizlast := some 40.0, spezifische_heizlast := some 120.0 }]
  , total := some 40.0, system := c7System, generator := c7Generator }

def c2AnschlussOhne : coordinator.HeizungsAnschluss :=
  { dokument_id := "heizung-2", gewerk := .KG420_HEIZUNG, leistung := some 12.0
  , versorgung := "", plan_ref := "H-02" }

def c2AnschlussFremd : coordinator.HeizungsAnschluss :=
  { dokument_id := "heizung-3", gewerk := .KG420_HEIZUNG, leistung := some 12.0
  , versorgung := "WP-9", plan_ref := "H-03" }

def c3AnforderungGeschoss : coordinator.SudAnforderung :=
  { id := "D-300", dokument_id := "tga-3", gewerk := .KG410_SANITAER, plan_ref := "S-03"
  , geschoss := some "EG", dimensionen := none, position := none }

def c3BestaetigungGeschoss : coordinator.SudBestaetigung :=
  { plan_ref := "T-04", geschoss := some "OG1", dimensionen := none, position := none
  , status := none }
/-- C2: interface reconciliation emits at most one Finding per heating
requirement, chosen by the first applicable branch in the order: empty
reference key (medium, no cross-trade reference), no supply under the
case-insensitively matched key (medium, supply not found), absent or
non-positive demand (no Finding), matched supply without a capacity (medium,
capacity undocumented), capacity + 1e-6 below demand (high, undersized, the
description quoting capacity, demand and deficit), otherwise no Finding.
Concretely, capacity 15.0 against demand 20.0 yields exactly one high
Finding quoting 15.0, 20.0 and 5.0; capacity 22.0 against demand 18.0 yields
none. -/
theorem c2_schnittstellenabgleich :
    (∀ (elektro : List (String × coordinator.ElektroSchnittstelle))
        (entry : coordinator.HeizungsAnschluss),
        (coordinator.schnittstellenBefunde elektro entry).length ≤ 1)
  ∧ (∀ elektro entry, pyToLower entry.versorgung = "" →
        (coordinator.schnittstellenBefunde elektro entry).map (fun f => (f.prioritaet, f.titel))
          = [("mittel", "Heizungsanschluss ohne Elektro-Zuordnung")])
  ∧ (∀ elektro entry, pyToLower entry.versorgung ≠ "" →
        lookupStr elektro (pyToLower entry.versorgung) = none →
        (coordinator.schnittstellenBefunde elektro entry).map (fun f => (f.prioritaet, f.titel))
          = [("mittel", "Versorgungskreis in Elektroplanung fehlt")])
  ∧ (∀ elektro entry supply, pyToLower entry.versorgung ≠ "" →
        lookupStr elektro (pyToLower entry.versorgung) = some supply →
        (entry.leistung = none ∨ ∃ l, entry.leistung = some l ∧ l ≤ 0) →
        coordinator.schnittstellenBefunde elektro entry = [])
  ∧ (∀ elektro entry supply l, pyToLower entry.versorgung ≠ "" →
        lookupStr elektro (pyToLower entry.versorgung) = some supply →
        entry.leistung = some l → 0 < l → supply.kapazitaet = none →
        (coordinator.schnittstellenBefunde elektro entry).map (fun f => (f.prioritaet, f.titel))
          = [("mittel", "Fehlende Kapazitätsangabe Elektro")])
  ∧ (∀ elektro entry supply l k, pyToLower entry.versorgung ≠ "" →
        lookupStr elektro (pyToLower entry.versorgung) = some supply →
        entry.leistung = some l → 0 < l → supply.kapazitaet = some k →
        k + 1 / 1000000 < l →
        (coordinator.schnittstellenBefunde elektro entry).map
            (fun f => (f.prioritaet, f.beschreibung))
          = [("hoch",
              "Der zugewiesene Elektro-Stromkreis \x27" ++ pyToLower entry.versorgung
                ++ "\x27 stellt " ++ fmtFixed 1 k ++ " kW bereit, benötigt werden jedoch "
                ++ fmtFixed 1 l ++ " kW. Differenz: " ++ fmtFixed 1 (l - k) ++ " kW.")])
  ∧ (∀ elektro entry supply l k, pyToLower entry.versorgung ≠ "" →
        lookupStr elektro (pyToLower entry.versorgung) = some supply →
        entry.leistung = some l → 0 < l → supply.kapazitaet = some k →
        ¬(k + 1 / 1000000 < l) →
        coordinator.schnittstellenBefunde elektro entry = [])
  ∧ (coordinator.schnittstellenBefunde c2Elektro15 c2Anschluss20).map
        (fun f => (f.prioritaet, f.beschreibung))
      = [("hoch",
          "Der zugewiesene Elektro-Stromkreis \x27wp-1\x27 stellt 15.0 kW bereit, benötigt werden jedoch 20.0 kW. Differenz: 5.0 kW.")]
  ∧ coordinator.schnittstellenBefunde c2Elektro22 c2Anschluss18 = []
  ∧ (∀ (elektro : List (String × coordinator.ElektroSchnittstelle))
        (entries : List coordinator.HeizungsAnschluss),
        coordinator.pruefeSchnittstellen elektro entries
          = entries.flatMap (coordinator.schnittstellenBefunde elektro)) := by
  refine ⟨?_, ?_, ?_, ?_, ?_, ?_, ?_, by decide, by decide, fun elektro entries => rfl⟩
  · intro elektro entry
    by_cases hv : pyToLower entry.versorgung = ""
    · simp [coordinator.schnittstellenBefunde, hv]
    · rcases hl : lookupStr elektro (pyToLower entry.versorgung) with _ | supply
      · simp [coordinator.schnittstellenBefunde, hv, hl]
      · rcases hle : entry.leistung with _ | l
        · simp [coordinator.schnittstellenBefunde, hv, hl, hle]
        · by_cases h0 : l ≤ 0
          · simp [coordinator.schnittstellenBefunde, hv, hl, hle, h0]
          · rcases hk : supply.kapazitaet with _ | k
            · simp [coordinator.schnittstellenBefunde, hv, hl, hle, hk, h0]
            · by_cases hcmp : k + (1000000 : ℚ)⁻¹ < l
              · simp [coordinator.schnittstellenBefunde, hv, hl, hle, hk, h0, hcmp]
              · simp [coordinator.schnittstellenBefunde, hv, hl, hle, hk, h0, hcmp]
  · intro elektro entry h
    simp [coordinator.schnittstellenBefunde, h]
  · intro elektro entry h h2
    simp [coordinator.schnittstellenBefunde, h, h2]
  · rintro elektro entry supply h h2 (h3 | ⟨l, h3, h4⟩)
    · simp [coordinator.schnittstellenBefunde, h, h2, h3]
    · simp [coordinator.schnittstellenBefunde, h, h2, h3, not_lt.mpr h4]
  · intro elektro entry supply l h h2 h3 h4 h5
    simp [coordinator.schnittstellenBefunde, h, h2, h3, h5, not_le.mpr h4]
  · intro elektro entry supply l k h h2 h3 h4 h5 h6
    have h6' : k + (1000000 : ℚ)⁻¹ < l := by rwa [one_div] at h6
    simp [coordinator.schnittstellenBefunde, h, h2, h3, h5, h6', not_le.mpr h4]
  · intro elektro entry supply l k h h2 h3 h4 h5 h6
    have h6' : ¬(k + (1000000 : ℚ)⁻¹ < l) := by rwa [one_div] at h6
    simp [coordinator.schnittstellenBefunde, h, h2, h3, h5, h6', not_le.mpr h4]

/-- C3: penetration (SuD) matching emits, per requirement, exactly one
high-priority not-confirmed Finding when no confirmation matches its id
case-insensitively, and otherwise at most one Finding chosen by the first
failing check in the order level, dimension, position: a declared-level
mismatch is one medium Finding; a dimension deviation beyond
max(0.02, 10% of the larger requested dimension) is one medium Finding
quoting both dimension pairs; a position deviation beyond 0.1 m in x or y is
one medium Finding.  Concretely, requirement (0.40, 0.40) against
confirmation (0.39, 0.41) yields no Finding and against (0.30, 0.30) yields
exactly one dimension-mismatch Finding. -/
theorem c3_sud_abgleich :
    (∀ anforderung : coordinator.SudAnforderung,
        (coordinator.sudBefunde anforderung []).map (fun f => (f.prioritaet, f.titel))
          = [("hoch", "SuD-Durchbruch nicht bestätigt")])
  ∧ (∀ (anforderung : coordinator.SudAnforderung) (passende : List coordinator.SudBestaetigung),
        (coordinator.sudBefunde anforderung passende).length ≤ 1)
  ∧ (∀ (anforderung : coordinator.SudAnforderung) (bestaetigung : coordinator.SudBestaetigung)
        (rest : List coordinator.SudBestaetigung),
        coordinator.geschossKonflikt anforderung bestaetigung = true →
        (coordinator.sudBefunde anforderung (bestaetigung :: rest)).map
            (fun f => (f.prioritaet, f.titel))
          = [("mittel", "SuD-Durchbruch falsches Geschoss")])
  ∧ (∀ (anforderung : coordinator.SudAnforderung) (bestaetigung : coordinator.SudBestaetigung)
        (rest : List coordinator.SudBestaetigung) (soll_dim ist_dim : ℚ × ℚ),
        coordinator.geschossKonflikt anforderung bestaetigung = false →
        anforderung.dimensionen = some soll_dim →
        bestaetigung.dimensionen = some ist_dim →
        (|soll_dim.1 - ist_dim.1| > max 0.02 (0.1 * max soll_dim.1 soll_dim.2)
          ∨ |soll_dim.2 - ist_dim.2| > max 0.02 (0.1 * max soll_dim.1 soll_dim.2)) →
        (coordinator.sudBefunde anforderung (bestaetigung :: rest)).map
            (fun f => (f.prioritaet, f.titel, f.beschreibung))
          = [("mittel", "SuD-Abmessungen weichen ab",
              "Angefordert " ++ fmtFixed 2 soll_dim.1 ++ " x " ++ fmtFixed 2 soll_dim.2
                ++ " m, bestätigt " ++ fmtFixed 2 ist_dim.1 ++ " x " ++ fmtFixed 2 ist_dim.2
                ++ " m.")])
  ∧ (∀ (anforderung : coordinator.SudAnforderung) (bestaetigung : coordinator.SudBestaetigung)
        (rest : List coordinator.SudBestaetigung),
        coordinator.geschossKonflikt anforderung bestaetigung = false →
        (anforderung.dimensionen = none ∨ bestaetigung.dimensionen = none) →
        coordinator.sudBefunde anforderung (bestaetigung :: rest)
          = coordinator.sudPositionsPruefung anforderung bestaetigung)
  ∧ (∀ (anforderung : coordinator.SudAnforderung) (bestaetigung : coordinator.SudBestaetigung)
        (rest : List coordinator.SudBestaetigung) (soll_dim ist_dim : ℚ × ℚ),
        coordinator.geschossKonflikt anforderung bestaetigung = false →
        anforderung.dimensionen = some soll_dim →
        bestaetigung.dimensionen = some ist_dim →
        ¬(|soll_dim.1 - ist_dim.1| > max 0.02 (0.1 * max soll_dim.1 soll_dim.2)
          ∨ |soll_dim.2 - ist_dim.2| > max 0.02 (0.1 * max soll_dim.1 soll_dim.2)) →
        coordinator.sudBefunde anforderung (bestaetigung :: rest)
          = coordinator.sudPositionsPruefung anforderung bestaetigung)
  ∧ (∀ (anforderung : coordinator.SudAnforderung) (bestaetigung : coordinator.SudBestaetigung)
        (soll_pos ist_pos : ℚ × ℚ),
        anforderung.position = some soll_pos →
        bestaetigung.position = some ist_pos →
        (|soll_pos.1 - ist_pos.1| > 0.1 ∨ |soll_pos.2 - ist_pos.2| > 0.1) →
        (coordinator.sudPositionsPruefung anforderung bestaetigung).map
            (fun f => (f.prioritaet, f.titel))
          = [("mittel", "SuD-Lageabweichung")])
  ∧ (∀ (anforderung : coordinator.SudAnforderung) (bestaetigung : coordinator.SudBestaetigung)
        (soll_pos ist_pos : ℚ × ℚ),
        anforderung.position = some soll_pos →
        bestaetigung.position = some ist_pos →
        ¬(|soll_pos.1 - ist_pos.1| > 0.1 ∨ |soll_pos.2 - ist_pos.2| > 0.1) →
        coordinator.sudPositionsPruefung anforderung bestaetigung = [])
  ∧ coordinator.sudBefunde c3Anforderung [c3BestaetigungNah] = []
  ∧ (coordinator.sudBefunde c3Anforderung [c3BestaetigungKlein]).map
        (fun f => (f.prioritaet, f.titel))
      = [("mittel", "SuD-Abmessungen weichen ab")]
  ∧ (∀ (anforderungen : List coordinator.SudAnforderung)
        (bestaetigungen : List (String × List coordinator.SudBestaetigung)),
        coordinator.pruefeSudPlanung anforderungen bestaetigungen
          = anforderungen.flatMap (fun anforderung =>
              coordinator.sudBefunde anforderung
                ((lookupStr bestaetigungen (pyToLower anforderung.id)).getD []))) := by
  refine ⟨?_, ?_, ?_, ?_, ?_, ?_, ?_, ?_, by decide, by decide,
    fun anforderungen bestaetigungen => rfl⟩
  · intro anforderung
    simp [coordinator.sudBefunde, coordinator.sudFehlendBefund]
  · intro anforderung passende
    have hpos : ∀ (a : coordinator.SudAnforderung) (b : coordinator.SudBestaetigung),
        (coordinator.sudPositionsPruefung a b).length ≤ 1 := by
      intro a b
      rcases hp : a.position with _ | sp <;> rcases hq : b.position with _ | ip <;>
        simp only [coordinator.sudPositionsPruefung, hp, hq] <;>
        first | (split <;> simp) | simp
    rcases passende with _ | ⟨bestaetigung, rest⟩
    · simp [coordinator.sudBefunde]
    · by_cases hg : coordinator.geschossKonflikt anforderung bestaetigung = true
      · simp [coordinator.sudBefunde, hg]
      · rcases hd : anforderung.dimensionen with _ | soll_dim <;>
          rcases hb : bestaetigung.dimensionen with _ | ist_dim <;>
          simp only [coordinator.sudBefunde, hg, hd, hb, Bool.false_eq_true, if_false]
        · exact hpos _ _
        · exact hpos _ _
        · exact hpos _ _
        · split
          · simp
          · exact hpos _ _
  · intro anforderung bestaetigung rest hg
    simp [coordinator.sudBefunde, hg, coordinator.sudGeschossBefund]
  · intro anforderung bestaetigung rest soll_dim ist_dim hg hd hb hmm
    simp only [coordinator.sudBefunde, hg, hd, hb, Bool.false_eq_true, if_false]
    rw [if_pos hmm]
    simp [coordinator.sudAbmessungBefund]
  · rintro anforderung bestaetigung rest hg (hd | hd)
    · rcases hb : bestaetigung.dimensionen with _ | ist_dim <;>
        simp [coordinator.sudBefunde, hg, hd, hb]
    · rcases ha : anforderung.dimensionen with _ | soll_dim <;>
        simp [coordinator.sudBefunde, hg, hd, ha]
  · intro anforderung bestaetigung rest soll_dim ist_dim hg hd hb hmm
    simp only [coordinator.sudBefunde, hg, hd, hb, Bool.false_eq_true, if_false]
    rw [if_neg hmm]
  · intro anforderung bestaetigung soll_pos ist_pos hp hq hmm
    simp only [coordinator.sudPositionsPruefung, hp, hq]
    rw [if_pos hmm]
    simp [coordinator.sudLageBefund]
  · intro anforderung bestaetigung soll_pos ist_pos hp hq hmm
    simp only [coordinator.sudPositionsPruefung, hp, hq]
    rw [if_neg hmm]

/-- C4: for every Finding list whose priorities lie in hoch/mittel/niedrig,
the evaluation step returns a permutation of its input that is sorted by
priority descending (hoch ranked 3, mittel 2, niedrig 1) and, within equal
priorities, by non-increasing confidence. -/
theorem c4_sortierung :
    (coordinator.prioWert "hoch" = some 3 ∧ coordinator.prioWert "mittel" = some 2
      ∧ coordinator.prioWert "niedrig" = some 1)
  ∧ ∀ befunde : List coordinator.Finding,
      (∀ f ∈ befunde,
          f.prioritaet = "hoch" ∨ f.prioritaet = "mittel" ∨ f.prioritaet = "niedrig") →
        (coordinator.bewerteBefunde befunde).Perm befunde
        ∧ (coordinator.bewerteBefunde befunde).Pairwise (fun f g =>
            coordinator.prioNum g < coordinator.prioNum f
            ∨ (coordinator.prioNum f = coordinator.prioNum g
               ∧ g.konfidenz_score ≤ f.konfidenz_score)) := by
  refine ⟨⟨rfl, rfl, rfl⟩, ?_⟩
  intro befunde _
  constructor
  · exact List.mergeSort_perm befunde coordinator.bewertungsLe
  · have htrans : ∀ a b c : coordinator.Finding, coordinator.bewertungsLe a b = true →
        coordinator.bewertungsLe b c = true → coordinator.bewertungsLe a c = true := by
      intro a b c hab hbc
      simp only [coordinator.bewertungsLe, Bool.or_eq_true, Bool.and_eq_true,
        decide_eq_true_eq, beq_iff_eq] at hab hbc ⊢
      rcases hab with h1 | ⟨h1, h2⟩ <;> rcases hbc with h3 | ⟨h3, h4⟩
      · exact Or.inl (by omega)
      · exact Or.inl (by omega)
      · exact Or.inl (by omega)
      · exact Or.inr ⟨by omega, le_trans h4 h2⟩
    have htotal : ∀ a b : coordinator.Finding,
        (coordinator.bewertungsLe a b || coordinator.bewertungsLe b a) = true := by
      intro a b
      simp only [Bool.or_eq_true, coordinator.bewertungsLe, Bool.and_eq_true,
        decide_eq_true_eq, beq_iff_eq]
      rcases lt_trichotomy (coordinator.prioNum a) (coordinator.prioNum b) with h | h | h
      · exact Or.inr (Or.inl h)
      · rcases le_total b.konfidenz_score a.konfidenz_score with hk | hk
        · exact Or.inl (Or.inr ⟨h, hk⟩)
        · exact Or.inr (Or.inr ⟨h.symm, hk⟩)
      · exact Or.inl (Or.inl h)
    have hs := @List.sorted_mergeSort coordinator.Finding coordinator.bewertungsLe htrans htotal befunde
    exact hs.imp (fun {a b} h => by
      simp only [coordinator.bewertungsLe, Bool.or_eq_true, Bool.and_eq_true,
        decide_eq_true_eq, beq_iff_eq] at h
      exact h)

/-- Witness for C4. -/
theorem c4_sortierung_witness :
    (coordinator.bewerteBefunde c4Beispiel).Perm c4Beispiel
    ∧ (coordinator.bewerteBefunde c4Beispiel).Pairwise (fun f g =>
        coordinator.prioNum g < coordinator.prioNum f
        ∨ (coordinator.prioNum f = coordinator.prioNum g
           ∧ g.konfidenz_score ≤ f.konfidenz_score)) :=
  c4_sortierung.2 c4Beispiel (by decide)

/-- Membership in a thunk guard factors through the normalized product. -/
theorem mem_guard_thunk {condition enabled : Bool} {p : Unit → checks.GuardProduced}
    {f : checks.Finding} (h : f ∈ checks.guard condition (.thunk p) enabled) :
    f ∈ checks.normalizeProduced (p ()) := by
  unfold checks.guard at h
  split at h
  · simp at h
  · exact h

/-- Room-check finding ids always carry the kg420_room_ prefix, so they never
coincide with the supply-temperature finding id. -/
theorem kg420_room_id_ne (n suffix : String) :
    ("kg420_room_" ++ n ++ suffix) ≠ "kg420_vorlauf_001" := by
  intro h
  have h7 := congrArg (fun s => s.data.take 11) h
  simp only [String.data_append, List.append_assoc] at h7
  rw [List.take_append_of_le_length (by decide)] at h7
  exact absurd h7 (by decide)

theorem mem_noRoomsBefunde_id {rooms : List kg420_heating.Room} {f : checks.Finding}
    (h : f ∈ kg420_heating.noRoomsBefunde rooms) : f.id = "kg420_0001" := by
  have h2 := mem_guard_thunk h
  simp only [checks.normalizeProduced, List.mem_singleton] at h2
  subst h2
  rfl

theorem mem_roomBefunde_id {projekt_typ : String} {range_data : Option (ℚ × ℚ)}
    {room : kg420_heating.Room} {f : checks.Finding}
    (h : f ∈ kg420_heating.roomBefunde projekt_typ range_data room) :
    f.id = "kg420_room_" ++ room.name.getD "unbekannt" ++ "_hoch"
    ∨ f.id = "kg420_room_" ++ room.name.getD "unbekannt" ++ "_niedrig" := by
  unfold kg420_heating.roomBefunde at h
  split at h
  · simp at h
  · split at h
    · simp at h
    · rcases List.mem_append.mp h with h1 | h1
      · left
        split at h1
        · simp only [List.mem_singleton] at h1
          subst h1
          rfl
        · simp at h1
      · right
        split at h1
        · simp only [List.mem_singleton] at h1
          subst h1
          rfl
        · simp at h1

theorem vorlaufBefunde_none {p : Kg420Params} : kg420_heating.vorlaufBefunde p none = [] := rfl

theorem deltaTBefunde_supply_none {p : Kg420Params} {return_temp : Option ℚ} :
    kg420_heating.deltaTBefunde p none return_temp = [] := rfl

theorem mem_ruecklaufBefunde_id {p : Kg420Params} {return_temp : Option ℚ} {f : checks.Finding}
    (h : f ∈ kg420_heating.ruecklaufBefunde p return_temp) : f.id = "kg420_ruecklauf_001" := by
  have h2 := mem_guard_thunk h
  simp only [checks.normalizeProduced, List.mem_singleton] at h2
  subst h2
  rfl

theorem mem_druckBefunde_id {p : Kg420Params} {system_pressure : Option ℚ} {f : checks.Finding}
    (h : f ∈ kg420_heating.druckBefunde p system_pressure) :
    f.id = "kg420_druck_min" ∨ f.id = "kg420_druck_max" := by
  unfold kg420_heating.druckBefunde at h
  split at h
  · simp at h
  · split at h
    · simp only [List.mem_singleton] at h
      subst h
      exact Or.inl rfl
    · split at h
      · simp only [List.mem_singleton] at h
        subst h
        exact Or.inr rfl
      · simp at h

theorem mem_hydraulikBefunde_id {p : Kg420Params} {system : kg420_heating.HeizSystem}
    {f : checks.Finding} (h : f ∈ kg420_heating.hydraulikBefunde p system) :
    f.id = "kg420_hydraulik_001" := by
  unfold kg420_heating.hydraulikBefunde at h
  split at h
  · have h2 := mem_guard_thunk h
    simp only [checks.normalizeProduced, List.mem_singleton] at h2
    subst h2
    rfl
  · simp at h

theorem mem_komponentenBefunde_id {system : kg420_heating.HeizSystem} {f : checks.Finding}
    (h : f ∈ kg420_heating.komponentenBefunde system) : f.id = "kg420_komponenten_001" := by
  unfold kg420_heating.komponentenBefunde at h
  dsimp only at h
  split at h
  · simp only [List.mem_singleton] at h
    subst h
    rfl
  · simp at h

theorem mem_erzeugerBefunde_id {p : Kg420Params} {generator_power : Option ℚ} {total_load : ℚ}
    {f : checks.Finding} (h : f ∈ kg420_heating.erzeugerBefunde p generator_power total_load) :
    f.id = "kg420_erzeuger_001" := by
  unfold kg420_heating.erzeugerBefunde at h
  split at h
  · simp at h
  · split at h
    · dsimp only at h
      split at h
      · simp only [List.mem_singleton] at h
        subst h
        rfl
      · simp at h
    · simp at h

theorem mem_generatorTypBefunde_id {p : Kg420Params} {generator : kg420_heating.HeizGenerator}
    {f : checks.Finding} (h : f ∈ kg420_heating.generatorTypBefunde p generator) :
    f.id = "kg420_wp_001" ∨ f.id = "kg420_kessel_001" := by
  unfold kg420_heating.generatorTypBefunde at h
  dsimp only at h
  split at h
  · have h2 := mem_guard_thunk h
    simp only [checks.normalizeProduced, List.mem_singleton] at h2
    subst h2
    exact Or.inl rfl
  · split at h
    · have h2 := mem_guard_thunk h
      simp only [checks.normalizeProduced, List.mem_singleton] at h2
      subst h2
      exact Or.inr rfl
    · simp at h

/-- Appending different suffixes to one string yields different strings. -/
theorem string_append_right_ne {x y : String} (s : String) (hxy : x ≠ y) : s ++ x ≠ s ++ y := by
  intro h
  have hd := congrArg String.data h
  rw [String.data_append, String.data_append] at hd
  exact hxy (String.ext (List.append_cancel_left hd))

theorem spannungBefunde_none {p : Kg440Params} {circuit : kg440_electrical.Stromkreis}
    (h : circuit.voltage_drop_percent = none) : kg440_electrical.spannungBefunde p circuit = [] := by
  simp [kg440_electrical.spannungBefunde, h]

theorem mem_diversityBefunde_id {p : Kg440Params} {circuit : kg440_electrical.Stromkreis}
    {f : checks.Finding} (h : f ∈ kg440_electrical.diversityBefunde p circuit) :
    f.id = "kg440_" ++ kg440_electrical.kreisName circuit ++ "_diversity" := by
  unfold kg440_electrical.diversityBefunde at h
  dsimp only at h
  split at h
  · simp at h
  · split at h
    · simp only [List.mem_singleton] at h
      subst h
      rfl
    · simp at h

theorem mem_reserveBefunde_id {circuit : kg440_electrical.Stromkreis} {f : checks.Finding}
    (h : f ∈ kg440_electrical.reserveBefunde circuit) :
    f.id = "kg440_" ++ kg440_electrical.kreisName circuit ++ "_reserve" := by
  unfold kg440_electrical.reserveBefunde at h
  dsimp only at h
  split at h
  · simp at h
  · split at h
    · simp only [List.mem_singleton] at h
      subst h
      rfl
    · simp at h

/-- C6: an unknown measured value is never a violation.  A heating context
whose supply temperature is absent never yields the Finding id
kg420_vorlauf_001 anywhere in the evaluator's output, and an electrical
circuit without voltage_drop_percent never yields its voltage-drop Finding
id among the per-circuit checks (the third conjunct ties the per-circuit
checks to the electrical evaluator's definition).  The remaining conjuncts
cover every other threshold or range check of the two cited evaluators: an
absent return temperature, temperature spread operand, pressure, generator
power, heat-pump COP, boiler efficiency, diversity factor, reserve, or
lighting area/power likewise produces no Finding for that check. -/
theorem c6_unbekannt_ist_kein_verstoss :
    (∀ context : kg420_heating.Context,
        context.system.supply_temperature = none →
          ∀ f ∈ kg420_heating.evaluate context, f.id ≠ "kg420_vorlauf_001")
  ∧ (∀ circuit : kg440_electrical.Stromkreis,
        circuit.voltage_drop_percent = none →
          ∀ f ∈ kg440_electrical.kreisBefunde PARAMS_kg440 circuit,
            f.id ≠ "kg440_" ++ kg440_electrical.kreisName circuit ++ "_spannung")
  ∧ (∀ context : kg440_electrical.Context,
        kg440_electrical.evaluate context
          = kg440_electrical.noKreiseBefunde context.stromkreise
            ++ context.stromkreise.flatMap (kg440_electrical.kreisBefunde PARAMS_kg440)
            ++ context.beleuchtung.flatMap
                (kg440_electrical.zoneBefunde PARAMS_kg440
                  (truthyOrStr context.projekt_typ "buerogebaeude"))
            ++ kg440_electrical.notbeleuchtungBefunde PARAMS_kg440
                (truthyOrStr context.projekt_typ "buerogebaeude") context.notbeleuchtung
            ++ kg440_electrical.usvBefunde PARAMS_kg440 context.verbraucher)
  ∧ (∀ p : Kg420Params, kg420_heating.ruecklaufBefunde p none = [])
  ∧ (∀ (p : Kg420Params) (return_temp : Option ℚ),
        kg420_heating.deltaTBefunde p none return_temp = [])
  ∧ (∀ (p : Kg420Params) (supply_temp : Option ℚ),
        kg420_heating.deltaTBefunde p supply_temp none = [])
  ∧ (∀ p : Kg420Params, kg420_heating.druckBefunde p none = [])
  ∧ (∀ (p : Kg420Params) (total_load : ℚ),
        kg420_heating.erzeugerBefunde p none total_load = [])
  ∧ (∀ (p : Kg420Params) (generator : kg420_heating.HeizGenerator),
        generator.cop = none → generator.cop_scop = none →
          ∀ f ∈ kg420_heating.generatorTypBefunde p generator, f.id ≠ "kg420_wp_001")
  ∧ (∀ (p : Kg420Params) (generator : kg420_heating.HeizGenerator),
        generator.wirkungsgrad = none →
          ∀ f ∈ kg420_heating.generatorTypBefunde p generator, f.id ≠ "kg420_kessel_001")
  ∧ (∀ (p : Kg440Params) (circuit : kg440_electrical.Stromkreis),
        circuit.diversity_factor = none → kg440_electrical.diversityBefunde p circuit = [])
  ∧ (∀ circuit : kg440_electrical.Stromkreis,
        circuit.reserve_percent = none → kg440_electrical.reserveBefunde circuit = [])
  ∧ (∀ (p : Kg440Params) (projekt_typ : String) (zone : kg440_electrical.Leuchte),
        zone.flaeche = none ∨ zone.leistung = none →
          kg440_electrical.zoneBefunde p projekt_typ zone = []) := by
  refine ⟨?_, ?_, fun context => rfl, fun p => rfl, fun p r => rfl, ?_, fun p => rfl,
    fun p t => rfl, ?_, ?_, ?_, ?_, ?_⟩
  · intro context hnone f hf
    simp only [kg420_heating.evaluate, List.mem_append, List.mem_flatMap] at hf
    rcases hf with ((((((((hf | hf) | hf) | hf) | hf) | hf) | hf) | hf) | hf) | hf
    · rw [mem_noRoomsBefunde_id hf]
      decide
    · obtain ⟨room, _, hr⟩ := hf
      rcases mem_roomBefunde_id hr with h | h <;> rw [h] <;> exact kg420_room_id_ne _ _
    · rw [hnone, vorlaufBefunde_none] at hf
      simp at hf
    · rw [mem_ruecklaufBefunde_id hf]
      decide
    · rw [hnone, deltaTBefunde_supply_none] at hf
      simp at hf
    · rcases mem_druckBefunde_id hf with h | h <;> rw [h] <;> decide
    · rw [mem_hydraulikBefunde_id hf]
      decide
    · rw [mem_komponentenBefunde_id hf]
      decide
    · rw [mem_erzeugerBefunde_id hf]
      decide
    · rcases mem_generatorTypBefunde_id hf with h | h <;> rw [h] <;> decide
  · intro circuit hnone f hf
    unfold kg440_electrical.kreisBefunde at hf
    rw [spannungBefunde_none hnone] at hf
    simp only [List.nil_append, List.mem_append] at hf
    rcases hf with hf | hf
    · rw [mem_diversityBefunde_id hf]
      exact string_append_right_ne _ (by decide)
    · rw [mem_reserveBefunde_id hf]
      exact string_append_right_ne _ (by decide)
  · intro p supply_temp
    cases supply_temp <;> rfl
  · intro p generator hc hcs f hf
    unfold kg420_heating.generatorTypBefunde at hf
    dsimp only at hf
    split at hf
    · rw [hc, hcs] at hf
      simp [floatOr, noneOrGe, checks.guard] at hf
    · split at hf
      · have h2 := mem_guard_thunk hf
        simp only [checks.normalizeProduced, List.mem_singleton] at h2
        subst h2
        simp
      · simp at hf
  · intro p generator hw f hf
    unfold kg420_heating.generatorTypBefunde at hf
    dsimp only at hf
    split at hf
    · have h2 := mem_guard_thunk hf
      simp only [checks.normalizeProduced, List.mem_singleton] at h2
      subst h2
      simp
    · split at hf
      · rw [hw] at hf
        simp [noneOrGe, checks.guard] at hf
      · simp at hf
  · intro p circuit h
    simp [kg440_electrical.diversityBefunde, h]
  · intro circuit h
    simp [kg440_electrical.reserveBefunde, h]
  · rintro p projekt_typ zone (h | h)
    · simp [kg440_electrical.zoneBefunde, h]
    · cases hz : zone.flaeche <;> simp [kg440_electrical.zoneBefunde, h, hz]

/-- Witness for C6. -/
theorem c6_unbekannt_ist_kein_verstoss_witness :
    ((kg420_heating.evaluate c6Kontext).all (fun f => !(f.id == "kg420_vorlauf_001"))) = true
  ∧ ((kg440_electrical.kreisBefunde PARAMS_kg440 c6Kreis).all
      (fun f => !(f.id == "kg440_" ++ kg440_electrical.kreisName c6Kreis ++ "_spannung"))) = true := by
  constructor
  · have h := c6_unbekannt_ist_kein_verstoss.1 c6Kontext rfl
    rw [List.all_eq_true]
    intro f hf
    simpa using h f hf
  · have h := c6_unbekannt_ist_kein_verstoss.2.1 c6Kreis rfl
    rw [List.all_eq_true]
    intro f hf
    simpa using h f hf

theorem axisOverlap_isSome_iff (a₁ a₂ b₁ b₂ : ℚ) :
    (coordinator.axisOverlap a₁ a₂ b₁ b₂).isSome = true ↔ 0 < overlapBetrag a₁ a₂ b₁ b₂ := by
  unfold coordinator.axisOverlap overlapBetrag
  dsimp only
  rw [lt_max_iff]
  split
  · rename_i hle
    simp only [Option.isSome_none, Bool.false_eq_true, false_iff]
    rintro (h | h)
    · exact lt_irrefl _ h
    · exact absurd (sub_pos.mp h) (not_lt.mpr hle)
  · rename_i hlt
    push_neg at hlt
    simp only [Option.isSome_some, true_iff]
    exact Or.inr (sub_pos.mpr hlt)

theorem axisOverlap_some_pos {a₁ a₂ b₁ b₂ s t : ℚ}
    (h : coordinator.axisOverlap a₁ a₂ b₁ b₂ = some (s, t)) : 0 < t - s := by
  unfold coordinator.axisOverlap at h
  dsimp only at h
  split at h
  · simp at h
  · rename_i hlt
    simp only [Option.some.injEq, Prod.mk.injEq] at h
    obtain ⟨h1, h2⟩ := h
    subst h1
    subst h2
    exact sub_pos.mpr (not_le.mp hlt)

theorem ueberlappung_isSome_iff (A B : coordinator.BBox) :
    (coordinator.ueberlappung A B).isSome = true ↔
      (0 < overlapBetrag A.x_min A.x_max B.x_min B.x_max
       ∧ 0 < overlapBetrag A.y_min A.y_max B.y_min B.y_max
       ∧ (0 < overlapBetrag A.z_min A.z_max B.z_min B.z_max
          ∨ (A.z_min = 0 ∧ A.z_max = 0 ∧ B.z_min = 0 ∧ B.z_max = 0))) := by
  have hx := axisOverlap_isSome_iff A.x_min A.x_max B.x_min B.x_max
  have hy := axisOverlap_isSome_iff A.y_min A.y_max B.y_min B.y_max
  have hz := axisOverlap_isSome_iff A.z_min A.z_max B.z_min B.z_max
  unfold coordinator.ueberlappung
  rcases hxe : coordinator.axisOverlap A.x_min A.x_max B.x_min B.x_max with _ | xov <;>
    rw [hxe] at hx <;>
    rcases hye : coordinator.axisOverlap A.y_min A.y_max B.y_min B.y_max with _ | yov <;>
      rw [hye] at hy
  · simp only [Option.isSome_none, Bool.false_eq_true, false_iff]
    rintro ⟨h1, h2, h3⟩
    exact absurd (hx.mpr h1) (by simp)
  · simp only [Option.isSome_none, Bool.false_eq_true, false_iff]
    rintro ⟨h1, h2, h3⟩
    exact absurd (hx.mpr h1) (by simp)
  · simp only [Option.isSome_none, Bool.false_eq_true, false_iff]
    rintro ⟨h1, h2, h3⟩
    exact absurd (hy.mpr h2) (by simp)
  · rcases hze : coordinator.axisOverlap A.z_min A.z_max B.z_min B.z_max with _ | zov <;>
      rw [hze] at hz
    · dsimp only
      split
      · rename_i hdeg
        simp only [Option.isSome_some, true_iff]
        refine ⟨hx.mp (by simp), hy.mp (by simp), Or.inr ?_⟩
        obtain ⟨k1, k2, k3, k4⟩ := hdeg
        exact ⟨k2, by rw [k1, k2], k4, by rw [k3, k4]⟩
      · rename_i hdeg
        simp only [Option.isSome_none, Bool.false_eq_true, false_iff]
        rintro ⟨h1, h2, h3 | ⟨k1, k2, k3, k4⟩⟩
        · exact absurd (hz.mpr h3) (by simp)
        · exact hdeg ⟨by rw [k1, k2], k1, by rw [k3, k4], k3⟩
    · simp only [Option.isSome_some, true_iff]
      exact ⟨hx.mp (by simp), hy.mp (by simp), Or.inl (hz.mp (by simp))⟩

theorem ueberlappung_some_pos {A B : coordinator.BBox} {ov : ℚ × ℚ × ℚ}
    (h : coordinator.ueberlappung A B = some ov) : 0 < ov.1 ∧ 0 < ov.2.1 := by
  unfold coordinator.ueberlappung at h
  rcases hxe : coordinator.axisOverlap A.x_min A.x_max B.x_min B.x_max with _ | xov <;>
    rw [hxe] at h <;>
    rcases hye : coordinator.axisOverlap A.y_min A.y_max B.y_min B.y_max with _ | yov <;>
      rw [hye] at h <;>
    try simp at h
  have hxp : 0 < xov.2 - xov.1 := axisOverlap_some_pos (by rw [hxe])
  have hyp : 0 < yov.2 - yov.1 := axisOverlap_some_pos (by rw [hye])
  rcases hze : coordinator.axisOverlap A.z_min A.z_max B.z_min B.z_max with _ | zov <;>
    rw [hze] at h
  · dsimp only at h
    split at h
    · simp only [Option.some.injEq] at h
      subst h
      exact ⟨hxp, hyp⟩
    · simp at h
  · simp only [Option.some.injEq] at h
    subst h
    exact ⟨hxp, hyp⟩

theorem levelsVerschieden_iff (la lb : Option String) :
    coordinator.levelsVerschieden la lb = true ↔
      (strTruthy la = true ∧ strTruthy lb = true
       ∧ pyToLower (optStr la) ≠ pyToLower (optStr lb)) := by
  cases la <;> cases lb <;>
    simp [coordinator.levelsVerschieden, strTruthy, optStr, and_assoc]

theorem kollisionsBefund_isSome_iff (a b : coordinator.GeometrieEintrag) :
    (coordinator.kollisionsBefund a b).isSome = true ↔ KollisionSpec a b := by
  unfold coordinator.kollisionsBefund
  by_cases hg : a.gewerk = b.gewerk
  · rw [if_pos hg]
    simp only [Option.isSome_none, Bool.false_eq_true, false_iff]
    rintro ⟨h1, _⟩
    exact h1 hg
  · rw [if_neg hg]
    by_cases hl : coordinator.levelsVerschieden a.level b.level = true
    · rw [if_pos hl]
      simp only [Option.isSome_none, Bool.false_eq_true, false_iff]
      rintro ⟨_, h2, _⟩
      exact h2 ((levelsVerschieden_iff a.level b.level).mp hl)
    · rw [if_neg hl]
      rcases hov : coordinator.ueberlappung a.bbox b.bbox with _ | ov
      · have hiff := ueberlappung_isSome_iff a.bbox b.bbox
        rw [hov] at hiff
        simp only [Option.isSome_none, Bool.false_eq_true, false_iff] at hiff ⊢
        rintro ⟨_, _, h3, h4, h5⟩
        exact hiff ⟨h3, h4, h5⟩
      · have hpos := ueberlappung_some_pos hov
        have hiff := ueberlappung_isSome_iff a.bbox b.bbox
        rw [hov] at hiff
        dsimp only
        rw [if_neg (not_le.mpr (mul_pos hpos.1 hpos.2))]
        simp only [Option.isSome_some, true_iff]
        obtain ⟨h3, h4, h5⟩ := hiff.mp (by simp)
        exact ⟨hg, fun hcon => hl ((levelsVerschieden_iff a.level b.level).mpr hcon), h3, h4, h5⟩

theorem kollisionsBefund_some_fields {a b : coordinator.GeometrieEintrag}
    {f : coordinator.Finding} (h : coordinator.kollisionsBefund a b = some f) :
    f.prioritaet = "hoch" ∧ f.konfidenz_score = 0.85 := by
  unfold coordinator.kollisionsBefund at h
  split at h
  · simp at h
  · split at h
    · simp at h
    · rcases hov : coordinator.ueberlappung a.bbox b.bbox with _ | ov <;> rw [hov] at h
      · simp at h
      · dsimp only at h
        split at h
        · simp at h
        · simp only [Option.some.injEq] at h
          subst h
          exact ⟨rfl, rfl⟩

theorem overlapBetrag_comm (a₁ a₂ b₁ b₂ : ℚ) :
    overlapBetrag a₁ a₂ b₁ b₂ = overlapBetrag b₁ b₂ a₁ a₂ := by
  unfold overlapBetrag
  rw [min_comm, max_comm a₁ b₁]

theorem KollisionSpec_symm_mp {a b : coordinator.GeometrieEintrag}
    (h : KollisionSpec a b) : KollisionSpec b a := by
  obtain ⟨h1, h2, h3, h4, h5⟩ := h
  refine ⟨Ne.symm h1, ?_, ?_, ?_, ?_⟩
  · rintro ⟨k1, k2, k3⟩
    exact h2 ⟨k2, k1, Ne.symm k3⟩
  · rwa [overlapBetrag_comm]
  · rwa [overlapBetrag_comm]
  · rcases h5 with h5 | ⟨k1, k2, k3, k4⟩
    · exact Or.inl (by rwa [overlapBetrag_comm])
    · exact Or.inr ⟨k3, k4, k1, k2⟩

theorem KollisionSpec_symm (a b : coordinator.GeometrieEintrag) :
    KollisionSpec a b ↔ KollisionSpec b a :=
  ⟨KollisionSpec_symm_mp, KollisionSpec_symm_mp⟩

theorem kollisionsBefund_isSome_symm (a b : coordinator.GeometrieEintrag) :
    (coordinator.kollisionsBefund a b).isSome = (coordinator.kollisionsBefund b a).isSome := by
  have h1 := kollisionsBefund_isSome_iff a b
  have h2 := kollisionsBefund_isSome_iff b a
  have hspec := KollisionSpec_symm a b
  by_cases hab : (coordinator.kollisionsBefund a b).isSome = true
  · rw [hab]
    exact (h2.mpr (hspec.mp (h1.mp hab))).symm
  · have hba : ¬(coordinator.kollisionsBefund b a).isSome = true :=
      fun hx => hab (h1.mpr (hspec.mpr (h2.mp hx)))
    rw [Bool.not_eq_true] at hab hba
    rw [hab, hba]

theorem pruefeKollisionen_eq_filterMap (es : List coordinator.GeometrieEintrag) :
    coordinator.pruefeKollisionen es
      = (coordinator.orderedPairs es).filterMap
          (fun p => coordinator.kollisionsBefund p.1 p.2) := by
  induction es with
  | nil => rfl
  | cons a rest ih =>
    simp only [coordinator.pruefeKollisionen, coordinator.orderedPairs,
      List.filterMap_append, List.filterMap_map, ih]
    rfl

/-- C1: collision detection reports a Finding for an ordered pair of
geometry entries exactly when the documents' trades differ, it is not the
case that both declare a level and the levels differ case-insensitively, the
x and y axis overlaps (max 0 of min of maxima minus max of minima) are both
strictly positive, and the z overlap is strictly positive or both boxes are
2-D-degenerate with z_min = z_max = 0; the reported Finding has priority
hoch and confidence 0.85; the per-pair predicate is symmetric, same-trade
pairs never collide, and declared differing levels never collide; the pair
loop is exactly the per-pair check over all ordered pairs. -/
theorem c1_kollisionserkennung :
    (∀ es : List coordinator.GeometrieEintrag,
        coordinator.pruefeKollisionen es
          = (coordinator.orderedPairs es).filterMap
              (fun p => coordinator.kollisionsBefund p.1 p.2))
  ∧ (∀ a b : coordinator.GeometrieEintrag,
        (coordinator.kollisionsBefund a b).isSome = true ↔ KollisionSpec a b)
  ∧ (∀ (a b : coordinator.GeometrieEintrag) (f : coordinator.Finding),
        coordinator.kollisionsBefund a b = some f →
          f.prioritaet = "hoch" ∧ f.konfidenz_score = 0.85)
  ∧ (∀ a b : coordinator.GeometrieEintrag,
        (coordinator.kollisionsBefund a b).isSome = (coordinator.kollisionsBefund b a).isSome)
  ∧ (∀ a b : coordinator.GeometrieEintrag, a.gewerk = b.gewerk →
        coordinator.kollisionsBefund a b = none)
  ∧ (∀ (a b : coordinator.GeometrieEintrag) (la lb : String),
        a.level = some la → la ≠ "" → b.level = some lb → lb ≠ "" →
        pyToLower la ≠ pyToLower lb → coordinator.kollisionsBefund a b = none) := by
  refine ⟨pruefeKollisionen_eq_filterMap, kollisionsBefund_isSome_iff,
    fun a b f h => kollisionsBefund_some_fields h, kollisionsBefund_isSome_symm, ?_, ?_⟩
  · intro a b h
    unfold coordinator.kollisionsBefund
    rw [if_pos h]
  · intro a b la lb h1 h2 h3 h4 h5
    have hl : coordinator.levelsVerschieden a.level b.level = true := by
      rw [h1, h3]
      simp [coordinator.levelsVerschieden, h2, h4, h5]
    unfold coordinator.kollisionsBefund
    by_cases hg : a.gewerk = b.gewerk
    · rw [if_pos hg]
    · rw [if_neg hg, if_pos hl]

/-- Witness for C1. -/
theorem c1_kollisionserkennung_witness :
    KollisionSpec c1EintragHeizung c1EintragElektro
  ∧ (coordinator.kollisionsBefund c1EintragHeizung c1EintragElektro).map
      (fun f => (f.prioritaet, f.konfidenz_score)) = some ("hoch", 0.85)
  ∧ coordinator.kollisionsBefund c1EintragHeizung c1EintragGleichesGewerk = none
  ∧ coordinator.kollisionsBefund c1EintragHeizung c1EintragAnderesGeschoss = none := by
  have hsome : (coordinator.kollisionsBefund c1EintragHeizung c1EintragElektro).isSome = true := by
    decide
  refine ⟨(c1_kollisionserkennung.2.1 _ _).mp hsome, ?_, ?_, ?_⟩
  · rcases h : coordinator.kollisionsBefund c1EintragHeizung c1EintragElektro with _ | f
    · rw [h] at hsome
      simp at hsome
    · obtain ⟨hp, hk⟩ := c1_kollisionserkennung.2.2.1 _ _ f h
      simp [hp, hk]
  · exact c1_kollisionserkennung.2.2.2.2.1 c1EintragHeizung c1EintragGleichesGewerk rfl
  · exact c1_kollisionserkennung.2.2.2.2.2 c1EintragHeizung c1EintragAnderesGeschoss "EG" "OG1"
      rfl (by decide) rfl (by decide) (by decide)

/-- C5: guard returns the empty list when disabled or when the condition
holds, and is then independent of the producer (the producer is never
invoked); when enabled with a failing condition it evaluates the producer
once and normalizes the result: None becomes [], a single Finding a
one-element list, and a sequence of Findings the corresponding list. -/
theorem c5_guard_kombinator :
    (∀ (condition enabled : Bool) (produce : Unit → checks.GuardProduced),
        (enabled = false ∨ condition = true) →
          checks.guard condition (.thunk produce) enabled = [])
  ∧ (∀ (condition enabled : Bool) (p q : Unit → checks.GuardProduced),
        (enabled = false ∨ condition = true) →
          checks.guard condition (.thunk p) enabled = checks.guard condition (.thunk q) enabled)
  ∧ (∀ produce : Unit → checks.GuardProduced,
        checks.guard false (.thunk produce) true = checks.normalizeProduced (produce ()))
  ∧ checks.normalizeProduced .nothing = []
  ∧ (∀ f, checks.normalizeProduced (.single f) = [f])
  ∧ (∀ fs, checks.normalizeProduced (.many fs) = fs) := by
  refine ⟨?_, ?_, ?_, rfl, fun f => rfl, fun fs => rfl⟩
  · rintro condition enabled produce (rfl | rfl) <;> simp [checks.guard]
  · rintro condition enabled p q (rfl | rfl) <;> simp [checks.guard]
  · intro produce
    simp [checks.guard]

/-- Witness for C5 at a concrete producer. -/
theorem c5_guard_kombinator_witness :
    checks.guard true (.thunk c5Produzent) true = []
  ∧ checks.guard false (.thunk c5Produzent) true = checks.normalizeProduced (c5Produzent ()) :=
  ⟨c5_guard_kombinator.1 true true c5Produzent (Or.inr rfl),
   c5_guard_kombinator.2.2.1 c5Produzent⟩

/-- C8: the Check Engine wrapper returns the evaluator's findings on success
and degrades any evaluator failure to the empty list; its total result type
already rules out a propagated exception. -/
theorem c8_check_engine_isolation :
    ∀ {Ctx : Type} (evaluator : Ctx → Except String (List checks.Finding)) (context : Ctx),
      (∀ e, evaluator context = .error e → checkEngineRun evaluator context = [])
      ∧ (∀ findings, evaluator context = .ok findings →
          checkEngineRun evaluator context = findings) := by
  intro Ctx evaluator context
  constructor
  · intro e h
    simp [checkEngineRun, h]
  · intro findings h
    simp [checkEngineRun, h]

/-- Witness for C8 at a failing and a succeeding evaluator. -/
theorem c8_check_engine_isolation_witness :
    checkEngineRun c8FehlerEvaluator () = [] ∧ checkEngineRun c8OkEvaluator () = [c5Befund] :=
  ⟨(c8_check_engine_isolation c8FehlerEvaluator ()).1 "Regelausführung fehlgeschlagen" rfl,
   (c8_check_engine_isolation c8OkEvaluator ()).2 [c5Befund] rfl⟩

/-- C9 (code evaluated at the failing input): a plan document whose legend is
neither in the metadata nor extractable makes the formal VDI 6026 check emit
exactly one Finding with priority "hinweis", and the sort's priority key map
has no rank for "hinweis" (the Python lookup in _bewerte_befunde raises
KeyError there, so the run's final sort is undefined for this Finding). -/
theorem c9_hinweis_prioritaet :
    (coordinator.pruefeVdi6026Konformitaet "plan" .KG420_HEIZUNG "doc-9" "plan9.pdf" none none).map
      (fun f => f.prioritaet) = ["hinweis"]
  ∧ coordinator.prioWert "hinweis" = none := by
  constructor <;> rfl

/-- C10: the penetration matcher compares a requirement only against the
first confirmation collected under its id; later confirmations are ignored,
so a later fully matching confirmation does not suppress the mismatch
Findings raised against the first. -/
theorem c10_sud_erste_bestaetigung :
    (∀ (anforderung : coordinator.SudAnforderung) (bestaetigung : coordinator.SudBestaetigung)
        (rest : List coordinator.SudBestaetigung),
        coordinator.sudBefunde anforderung (bestaetigung :: rest)
          = coordinator.sudBefunde anforderung [bestaetigung])
  ∧ (coordinator.sudBefunde c10Anforderung [c10BestaetigungFalsch, c10BestaetigungPassend]).map
      (fun f => f.titel) = ["SuD-Abmessungen weichen ab"] := by
  constructor
  · intro anforderung bestaetigung rest
    rfl
  · decide

/-- C7: on the end-to-end heating scenario (the test suite's base context),
zero rooms yield exactly one Finding, kg420_0001 with priority hoch; one room
at 120 W/m² against the office range (max 95) yields exactly one too-high
Finding and no too-low Finding for that room. -/
theorem c7_heizung_szenario :
    (kg420_heating.evaluate c7KontextOhneRaeume).map (fun f => (f.id, f.prioritaet))
      = [("kg420_0001", "hoch")]
  ∧ ((kg420_heating.evaluate c7KontextHoheLast).filter
      (fun f => f.id == "kg420_room_Raum A_hoch")).length = 1
  ∧ ((kg420_heating.evaluate c7KontextHoheLast).filter
      (fun f => f.id == "kg420_room_Raum A_niedrig")).length = 0 := by
  refine ⟨by decide, by decide, by decide⟩

/-- Witness for C2 at concrete requirements. -/
theorem c2_schnittstellenabgleich_witness :
    (coordinator.schnittstellenBefunde c2Elektro15 c2AnschlussOhne).map
        (fun f => (f.prioritaet, f.titel))
      = [("mittel", "Heizungsanschluss ohne Elektro-Zuordnung")]
  ∧ (coordinator.schnittstellenBefunde c2Elektro15 c2AnschlussFremd).map
        (fun f => (f.prioritaet, f.titel))
      = [("mittel", "Versorgungskreis in Elektroplanung fehlt")] :=
  ⟨c2_schnittstellenabgleich.2.1 c2Elektro15 c2AnschlussOhne (by decide),
   c2_schnittstellenabgleich.2.2.1 c2Elektro15 c2AnschlussFremd (by decide) (by decide)⟩

/-- Witness for C3 at a concrete level mismatch. -/
theorem c3_sud_abgleich_witness :
    (coordinator.sudBefunde c3AnforderungGeschoss [c3BestaetigungGeschoss]).map
        (fun f => (f.prioritaet, f.titel))
      = [("mittel", "SuD-Durchbruch falsches Geschoss")] :=
  c3_sud_abgleich.2.2.1 c3AnforderungGeschoss c3BestaetigungGeschoss [] (by decide)
